import Mathlib

/-!
Verification development for the Tinyships game logic (`game_cpp/game.cpp`).

Modelling conventions:
* `float` arithmetic is idealized as real arithmetic (`ℝ`); numeric literals
  are taken exactly as written in the source.
* The C++ pointer field `scene::Mesh *mesh` of `Aircraft` is modelled by two
  booleans: `meshNonNull` (the stored pointer value is non-null) and
  `meshAlive` (the mesh object the framework created for this aircraft has
  not been destroyed).  `Aircraft::land` calls `scene::destroyMesh(mesh)`
  without nulling the pointer, so the two can differ.
* The non-owning back pointer `owningShip` is realized by passing the owning
  `Ship` value to the member functions that dereference it
  (`launch`, `takeoff`, `land`, `update`).
* The plane array pointer held by `Ship` is realized by passing the array to
  `Ship.mouseClicked`; the process-wide singletons `game::ship` and
  `game::planes` become the `Game` structure.
* Calls into the external scene framework (`createAircraftMesh`,
  `destroyMesh`, `placeMesh`, `placeGoalMarker`) only affect the mesh
  booleans; `placeMesh`/`placeGoalMarker` are no-ops on the game state.
-/

set_option maxHeartbeats 1000000

noncomputable section

namespace params

namespace ship

def LINEAR_SPEED : ℝ := 0.5

def ANGULAR_SPEED : ℝ := 0.5

end ship

namespace aircraft

def LINEAR_SPEED : ℝ := 2

def ANGULAR_SPEED : ℝ := 2.5

def FLIGHT_TIME : ℝ := 10

def REFUEL_TIME : ℝ := 3

end aircraft

def PI : ℝ := 3.14159265358979

end params

/-- `class Vector2` from game.cpp. -/
@[ext] structure Vector2 where
  x : ℝ
  y : ℝ

instance : Add Vector2 := ⟨fun a b => ⟨a.x + b.x, a.y + b.y⟩⟩

instance : Sub Vector2 := ⟨fun a b => ⟨a.x - b.x, a.y - b.y⟩⟩

instance : SMul ℝ Vector2 := ⟨fun c v => ⟨c * v.x, c * v.y⟩⟩

@[simp] theorem Vector2.add_x (a b : Vector2) : (a + b).x = a.x + b.x := rfl

@[simp] theorem Vector2.add_y (a b : Vector2) : (a + b).y = a.y + b.y := rfl

@[simp] theorem Vector2.sub_x (a b : Vector2) : (a - b).x = a.x - b.x := rfl

@[simp] theorem Vector2.sub_y (a b : Vector2) : (a - b).y = a.y - b.y := rfl

@[simp] theorem Vector2.smul_x (c : ℝ) (v : Vector2) : (c • v).x = c * v.x := rfl

@[simp] theorem Vector2.smul_y (c : ℝ) (v : Vector2) : (c • v).y = c * v.y := rfl

/-- `Vector2::length`: `std::sqrt(x * x + y * y)`. -/
def Vector2.length (v : Vector2) : ℝ := Real.sqrt (v.x * v.x + v.y * v.y)

/-- `std::atan2(y, x)`, idealized: the principal argument of the complex
number `x + y i` (range `(-π, π]`, same convention as `atan2`). -/
def atan2 (y x : ℝ) : ℝ := Complex.arg ⟨x, y⟩

/-- `enum class AircraftState` from game.cpp. -/
inductive AircraftState
  | IDLE
  | TAKEOFF
  | FLY
  | HOVER
  | LAND
  | REFUEL
  deriving DecidableEq

/-- The key identifiers the game logic reads (`game::KEY_FORWARD` …); the
framework enumeration may hold further keys, which the logic never reads. -/
inductive Key
  | FORWARD
  | BACKWARD
  | LEFT
  | RIGHT
  deriving DecidableEq

/-- `class Ship` data members from game.cpp.  `scene::Mesh *mesh` is modelled
by `meshNonNull`; the plane array pointer is realized by the `Game`
aggregate. -/
@[ext] structure Ship where
  meshNonNull : Bool
  position : Vector2
  angle : ℝ
  linearSpeed : ℝ
  input : Key → Bool

/-- `class Aircraft` data members from game.cpp (including the source's
spelling `hoverRaduis`). -/
@[ext] structure Aircraft where
  meshNonNull : Bool
  meshAlive : Bool
  position : Vector2
  angle : ℝ
  acceleration : ℝ
  linearSpeed : ℝ
  takeoffTime : ℝ
  flightTime : ℝ
  landingTime : ℝ
  targetPosition : Vector2
  hoverRaduis : ℝ
  hoverAngle : ℝ
  state : AircraftState

/-- `Aircraft::init`.  It does not touch `mesh` or `targetPosition`; the
`owningShip` binding is realized by argument passing. -/
def Aircraft.init (a : Aircraft) : Aircraft :=
  { a with
    position := ⟨0, 0⟩
    angle := 0
    acceleration := 1
    linearSpeed := 0
    takeoffTime := 2
    flightTime := 0
    landingTime := 0
    hoverRaduis := 1
    hoverAngle := 0
    state := AircraftState.IDLE }

/-- `Aircraft::deinit`: `scene::destroyMesh(mesh); mesh = nullptr;`. -/
def Aircraft.deinit (a : Aircraft) : Aircraft :=
  { a with meshAlive := false, meshNonNull := false }

/-- `Aircraft::setTarget`. -/
def Aircraft.setTarget (a : Aircraft) (position : Vector2) : Aircraft :=
  { a with targetPosition := position }

/-- `Aircraft::readyToFly`. -/
def Aircraft.readyToFly (a : Aircraft) : Prop := a.state = AircraftState.IDLE

instance (a : Aircraft) : Decidable a.readyToFly :=
  inferInstanceAs (Decidable (_ = _))

/-- `Aircraft::inFlight`. -/
def Aircraft.inFlight (a : Aircraft) : Prop :=
  a.state ≠ AircraftState.IDLE ∧ a.state ≠ AircraftState.REFUEL

instance (a : Aircraft) : Decidable a.inFlight :=
  inferInstanceAs (Decidable (_ ∧ _))

/-- `Aircraft::launch`: creates the mesh, copies the owning ship's pose and
enters TAKEOFF.  Note that no timer is modified here. -/
def Aircraft.launch (owningShip : Ship) (a : Aircraft) : Aircraft :=
  { a with
    meshNonNull := true
    meshAlive := true
    position := owningShip.position
    angle := owningShip.angle
    state := AircraftState.TAKEOFF }

/-- `Aircraft::takeoff`. -/
def Aircraft.takeoff (owningShip : Ship) (dt : ℝ) (a : Aircraft) : Aircraft :=
  let a1 := if a.flightTime ≥ a.takeoffTime then
    { a with state := AircraftState.FLY } else a
  let angle := owningShip.angle
  let speed := a1.linearSpeed + owningShip.linearSpeed
  { a1 with
    angle := angle
    position := a1.position + (speed * dt) • (⟨Real.cos angle, Real.sin angle⟩ : Vector2) }

/-- `Aircraft::fly`. -/
def Aircraft.fly (dt : ℝ) (a : Aircraft) : Aircraft :=
  let radiusToTarget := (a.targetPosition - a.position).length
  if radiusToTarget ≤ a.hoverRaduis then
    { a with state := AircraftState.HOVER, hoverAngle := a.angle + params.PI }
  else
    let angle := atan2 (a.targetPosition.y - a.position.y) (a.targetPosition.x - a.position.x)
    { a with
      angle := angle
      position := a.position + (a.linearSpeed * dt) • (⟨Real.cos angle, Real.sin angle⟩ : Vector2) }

/-- `Aircraft::hover`. -/
def Aircraft.hover (dt : ℝ) (a : Aircraft) : Aircraft :=
  let radiusToTarget := (a.targetPosition - a.position).length
  let errorTolerance : ℝ := 0.000001
  if radiusToTarget > a.hoverRaduis + errorTolerance then
    { a with state := AircraftState.FLY }
  else
    let a1 := if a.flightTime ≥ params.aircraft.FLIGHT_TIME then
      { a with state := AircraftState.LAND } else a
    let angle := a1.hoverAngle + params.PI / 2
    let hoverAngle := a1.hoverAngle + params.aircraft.ANGULAR_SPEED * dt
    { a1 with
      angle := angle
      hoverAngle := hoverAngle
      position := ⟨a1.targetPosition.x + Real.cos hoverAngle * a1.hoverRaduis,
                   a1.targetPosition.y + Real.sin hoverAngle * a1.hoverRaduis⟩ }

/-- `Aircraft::land`.  On the REFUEL transition `scene::destroyMesh(mesh)` is
called but the pointer is not nulled, hence only `meshAlive` is cleared. -/
def Aircraft.land (owningShip : Ship) (dt : ℝ) (a : Aircraft) : Aircraft :=
  let landingPos := owningShip.position
  let distanceToShip := (landingPos - a.position).length
  let a1 := if distanceToShip ≤ 0.1 then
    { a with
      state := AircraftState.REFUEL
      landingTime := a.flightTime
      meshAlive := false }
    else a
  let angle := atan2 (landingPos.y - a1.position.y) (landingPos.x - a1.position.x)
  { a1 with
    angle := angle
    position := a1.position + (a1.linearSpeed * dt) • (⟨Real.cos angle, Real.sin angle⟩ : Vector2) }

/-- `Aircraft::refuel`. -/
def Aircraft.refuel (dt : ℝ) (a : Aircraft) : Aircraft :=
  let a1 := { a with landingTime := a.landingTime + dt }
  if a1.landingTime > a1.flightTime + params.aircraft.REFUEL_TIME then
    { a1 with
      state := AircraftState.IDLE
      linearSpeed := 0
      flightTime := 0
      landingTime := 0 }
  else a1

/-- `Aircraft::simulateFlight`. -/
def Aircraft.simulateFlight (dt : ℝ) (a : Aircraft) : Aircraft :=
  if ¬ a.inFlight then a
  else
    let newSpeed := a.linearSpeed + a.acceleration * dt
    let maxSpeed := params.aircraft.LINEAR_SPEED
    { a with
      linearSpeed := if newSpeed ≤ maxSpeed then newSpeed else maxSpeed
      flightTime := a.flightTime + dt }

/-- `Aircraft::update`: state dispatch followed by `simulateFlight`. -/
def Aircraft.update (owningShip : Ship) (dt : ℝ) (a : Aircraft) : Aircraft :=
  let a1 :=
    match a.state with
    | AircraftState.TAKEOFF => a.takeoff owningShip dt
    | AircraftState.FLY => a.fly dt
    | AircraftState.HOVER => a.hover dt
    | AircraftState.LAND => a.land owningShip dt
    | AircraftState.REFUEL => a.refuel dt
    | AircraftState.IDLE => a
  a1.simulateFlight dt

/-- `Ship::init`.  Note: `linearSpeed` is not reset here; the function
asserts `!mesh`, which holds whenever it is called in the program. -/
def Ship.init (s : Ship) : Ship :=
  { s with
    meshNonNull := true
    position := ⟨0, 0⟩
    angle := 0
    input := fun _ => false }

/-- `Ship::deinit`. -/
def Ship.deinit (s : Ship) : Ship := { s with meshNonNull := false }

/-- `Ship::update`. -/
def Ship.update (dt : ℝ) (s : Ship) : Ship :=
  let linearSpeed : ℝ :=
    if s.input Key.FORWARD then params.ship.LINEAR_SPEED
    else if s.input Key.BACKWARD then -params.ship.LINEAR_SPEED
    else 0
  let angularSpeed : ℝ :=
    if s.input Key.LEFT ∧ linearSpeed ≠ 0 then params.ship.ANGULAR_SPEED
    else if s.input Key.RIGHT ∧ linearSpeed ≠ 0 then -params.ship.ANGULAR_SPEED
    else 0
  let angle := s.angle + angularSpeed * dt
  { s with
    linearSpeed := linearSpeed
    angle := angle
    position := s.position + (linearSpeed * dt) • (⟨Real.cos angle, Real.sin angle⟩ : Vector2) }

/-- `Ship::keyPressed` (the key-range assertion is a precondition made total
by the `Key` type). -/
def Ship.keyPressed (key : Key) (s : Ship) : Ship :=
  { s with input := fun k => if k = key then true else s.input k }

/-- `Ship::keyReleased`. -/
def Ship.keyReleased (key : Key) (s : Ship) : Ship :=
  { s with input := fun k => if k = key then false else s.input k }

/-- The right-button loop body of `Ship::mouseClicked`: walk the planes in
order, launch the first one with `readyToFly()` and stop (`break`). -/
def launchFirst (s : Ship) (planes : Fin 5 → Aircraft) : List (Fin 5) → (Fin 5 → Aircraft)
  | [] => planes
  | i :: rest =>
    if (planes i).readyToFly then
      Function.update planes i ((planes i).launch s)
    else launchFirst s planes rest

/-- `Ship::mouseClicked`, acting on the plane array the ship points to. -/
def Ship.mouseClicked (s : Ship) (planes : Fin 5 → Aircraft) (worldPosition : Vector2)
    (isLeftButton : Bool) : Fin 5 → Aircraft :=
  if isLeftButton then fun i => (planes i).setTarget worldPosition
  else launchFirst s planes (List.finRange 5)

/-- The process-wide game state: `game::ship` and `game::planes`. -/
@[ext] structure Game where
  ship : Ship
  planes : Fin 5 → Aircraft

/-- An `Aircraft` at process start: static zero-initialization followed by
the constructor `Aircraft::Aircraft` (which only nulls `mesh`). -/
def Aircraft.startup : Aircraft :=
  { meshNonNull := false
    meshAlive := false
    position := ⟨0, 0⟩
    angle := 0
    acceleration := 0
    linearSpeed := 0
    takeoffTime := 0
    flightTime := 0
    landingTime := 0
    targetPosition := ⟨0, 0⟩
    hoverRaduis := 0
    hoverAngle := 0
    state := AircraftState.IDLE }

/-- A `Ship` at process start. -/
def Ship.startup : Ship :=
  { meshNonNull := false
    position := ⟨0, 0⟩
    angle := 0
    linearSpeed := 0
    input := fun _ => false }

/-- The game globals at process start. -/
def Game.startup : Game := { ship := Ship.startup, planes := fun _ => Aircraft.startup }

/-- `game::init`. -/
def Game.init (g : Game) : Game :=
  { ship := g.ship.init, planes := fun i => (g.planes i).init }

/-- `game::deinit`: tear down the ship, then only planes with
`inFlight()`. -/
def Game.deinit (g : Game) : Game :=
  { ship := g.ship.deinit
    planes := fun i => if (g.planes i).inFlight then (g.planes i).deinit else g.planes i }

/-- `game::update`: ship first, then every plane against the updated
ship. -/
def Game.update (dt : ℝ) (g : Game) : Game :=
  let ship := g.ship.update dt
  { ship := ship, planes := fun i => (g.planes i).update ship dt }

/-- `game::keyPressed`. -/
def Game.keyPressed (key : Key) (g : Game) : Game :=
  { g with ship := g.ship.keyPressed key }

/-- `game::keyReleased`. -/
def Game.keyReleased (key : Key) (g : Game) : Game :=
  { g with ship := g.ship.keyReleased key }

/-- `game::mouseClicked` after the framework's screen-to-world transform:
`worldPosition` is already in world space. -/
def Game.mouseClicked (worldPosition : Vector2) (isLeftButton : Bool) (g : Game) : Game :=
  { g with planes := g.ship.mouseClicked g.planes worldPosition isLeftButton }

/-- The game states reachable through the public interface, starting from
process start followed by `game::init`, with positive frame times. -/
inductive Reachable : Game → Prop
  | init : Reachable Game.startup.init
  | update (g : Game) (dt : ℝ) : Reachable g → 0 < dt → Reachable (g.update dt)
  | keyPressed (g : Game) (k : Key) : Reachable g → Reachable (g.keyPressed k)
  | keyReleased (g : Game) (k : Key) : Reachable g → Reachable (g.keyReleased k)
  | mouseClicked (g : Game) (wp : Vector2) (b : Bool) :
      Reachable g → Reachable (g.mouseClicked wp b)

/-! ### Geometry helpers -/

theorem Vector2.length_mk (x y : ℝ) :
    (⟨x, y⟩ : Vector2).length = Real.sqrt (x * x + y * y) := rfl

theorem Vector2.length_nonneg (v : Vector2) : 0 ≤ v.length := Real.sqrt_nonneg _

theorem length_cos_sin (t : ℝ) : (⟨Real.cos t, Real.sin t⟩ : Vector2).length = 1 := by
  rw [Vector2.length_mk,
    show Real.cos t * Real.cos t + Real.sin t * Real.sin t
      = Real.sin t ^ 2 + Real.cos t ^ 2 by ring,
    Real.sin_sq_add_cos_sq, Real.sqrt_one]

theorem Vector2.length_smul (c : ℝ) (v : Vector2) : (c • v).length = |c| * v.length := by
  simp only [Vector2.length, Vector2.smul_x, Vector2.smul_y]
  rw [show c * v.x * (c * v.x) + c * v.y * (c * v.y)
      = c ^ 2 * (v.x * v.x + v.y * v.y) by ring,
    Real.sqrt_mul (sq_nonneg c), Real.sqrt_sq_eq_abs]

theorem ne_zero_of_length_pos (v : Vector2) (h : 0 < v.length) : ¬(v.x = 0 ∧ v.y = 0) := by
  rintro ⟨hx, hy⟩
  rw [Vector2.length, hx, hy] at h
  norm_num at h

theorem cos_atan2 (y x : ℝ) (h : ¬(x = 0 ∧ y = 0)) :
    Real.cos (atan2 y x) = x / (⟨x, y⟩ : Vector2).length := by
  have hz : (⟨x, y⟩ : ℂ) ≠ 0 := fun hc =>
    h ⟨congrArg Complex.re hc, congrArg Complex.im hc⟩
  have habs : Complex.abs ⟨x, y⟩ = (⟨x, y⟩ : Vector2).length := by
    rw [Complex.abs_apply, Complex.normSq_mk, Vector2.length_mk]
  rw [atan2, Complex.cos_arg hz, habs]

theorem sin_atan2 (y x : ℝ) :
    Real.sin (atan2 y x) = y / (⟨x, y⟩ : Vector2).length := by
  have habs : Complex.abs ⟨x, y⟩ = (⟨x, y⟩ : Vector2).length := by
    rw [Complex.abs_apply, Complex.normSq_mk, Vector2.length_mk]
  rw [atan2, Complex.sin_arg, habs]

/-- Moving distance `c` along the `atan2` heading from `p` toward the origin
scales `p` by `1 - c / |p|`. -/
theorem move_toward_origin (p : Vector2) (c : ℝ) (h : 0 < p.length) :
    p + c • (⟨Real.cos (atan2 (0 - p.y) (0 - p.x)),
              Real.sin (atan2 (0 - p.y) (0 - p.x))⟩ : Vector2)
      = (1 - c / p.length) • p := by
  have hnz : ¬((0 - p.x) = 0 ∧ (0 - p.y) = 0) := by
    rintro ⟨hx, hy⟩
    exact ne_zero_of_length_pos p h ⟨by linarith, by linarith⟩
  have hlen : (⟨0 - p.x, 0 - p.y⟩ : Vector2).length = p.length := by
    simp only [Vector2.length]
    congr 1
    ring
  have hd : p.length ≠ 0 := ne_of_gt h
  ext
  · simp only [Vector2.add_x, Vector2.smul_x, cos_atan2 _ _ hnz, hlen]
    field_simp
    ring
  · simp only [Vector2.add_y, Vector2.smul_y, sin_atan2, hlen]
    field_simp
    ring

theorem length_smul_self (p : Vector2) (c : ℝ) (h : 0 < p.length) :
    ((1 - c / p.length) • p).length = |p.length - c| := by
  rw [Vector2.length_smul]
  rw [show |1 - c / p.length| * p.length = |(1 - c / p.length) * p.length| by
    rw [abs_mul, abs_of_pos h]]
  congr 1
  field_simp

/-! ### Step lemmas: `Aircraft.update` by state and guard -/

theorem update_IDLE (s : Ship) (dt : ℝ) (a : Aircraft)
    (h : a.state = AircraftState.IDLE) :
    a.update s dt = a := by
  rw [Aircraft.update, Aircraft.simulateFlight]
  rw [if_pos]
  · rw [h]
  · rw [h]
    simp [Aircraft.inFlight, h]

theorem update_TAKEOFF_stay (s : Ship) (dt : ℝ) (a : Aircraft)
    (h : a.state = AircraftState.TAKEOFF) (hft : a.flightTime < a.takeoffTime) :
    a.update s dt =
      { a with
        angle := s.angle
        position := a.position + ((a.linearSpeed + s.linearSpeed) * dt) •
          (⟨Real.cos s.angle, Real.sin s.angle⟩ : Vector2)
        linearSpeed := if a.linearSpeed + a.acceleration * dt ≤ params.aircraft.LINEAR_SPEED
          then a.linearSpeed + a.acceleration * dt else params.aircraft.LINEAR_SPEED
        flightTime := a.flightTime + dt } := by
  rw [Aircraft.update]
  simp only [h]
  rw [Aircraft.takeoff, Aircraft.simulateFlight]
  simp only [if_neg (not_le.mpr hft)]
  rw [if_neg]
  · rw [h]
  · simp [Aircraft.inFlight, h]

theorem update_TAKEOFF_fly (s : Ship) (dt : ℝ) (a : Aircraft)
    (h : a.state = AircraftState.TAKEOFF) (hft : a.takeoffTime ≤ a.flightTime) :
    a.update s dt =
      { a with
        state := AircraftState.FLY
        angle := s.angle
        position := a.position + ((a.linearSpeed + s.linearSpeed) * dt) •
          (⟨Real.cos s.angle, Real.sin s.angle⟩ : Vector2)
        linearSpeed := if a.linearSpeed + a.acceleration * dt ≤ params.aircraft.LINEAR_SPEED
          then a.linearSpeed + a.acceleration * dt else params.aircraft.LINEAR_SPEED
        flightTime := a.flightTime + dt } := by
  rw [Aircraft.update]
  simp only [h]
  rw [Aircraft.takeoff, Aircraft.simulateFlight]
  simp only [if_pos hft]
  rw [if_neg]
  simp [Aircraft.inFlight]

theorem update_FLY_hover (s : Ship) (dt : ℝ) (a : Aircraft)
    (h : a.state = AircraftState.FLY)
    (hr : (a.targetPosition - a.position).length ≤ a.hoverRaduis) :
    a.update s dt =
      { a with
        state := AircraftState.HOVER
        hoverAngle := a.angle + params.PI
        linearSpeed := if a.linearSpeed + a.acceleration * dt ≤ params.aircraft.LINEAR_SPEED
          then a.linearSpeed + a.acceleration * dt else params.aircraft.LINEAR_SPEED
        flightTime := a.flightTime + dt } := by
  rw [Aircraft.update]
  simp only [h]
  rw [Aircraft.fly, Aircraft.simulateFlight]
  simp only [if_pos hr]
  rw [if_neg]
  simp [Aircraft.inFlight]

theorem update_FLY_move (s : Ship) (dt : ℝ) (a : Aircraft)
    (h : a.state = AircraftState.FLY)
    (hr : a.hoverRaduis < (a.targetPosition - a.position).length) :
    a.update s dt =
      { a with
        angle := atan2 (a.targetPosition.y - a.position.y) (a.targetPosition.x - a.position.x)
        position := a.position + (a.linearSpeed * dt) •
          (⟨Real.cos (atan2 (a.targetPosition.y - a.position.y)
              (a.targetPosition.x - a.position.x)),
            Real.sin (atan2 (a.targetPosition.y - a.position.y)
              (a.targetPosition.x - a.position.x))⟩ : Vector2)
        linearSpeed := if a.linearSpeed + a.acceleration * dt ≤ params.aircraft.LINEAR_SPEED
          then a.linearSpeed + a.acceleration * dt else params.aircraft.LINEAR_SPEED
        flightTime := a.flightTime + dt } := by
  rw [Aircraft.update]
  simp only [h]
  rw [Aircraft.fly, Aircraft.simulateFlight]
  simp only [if_neg (not_le.mpr hr)]
  rw [if_neg]
  · rw [h]
  · simp [Aircraft.inFlight, h]

theorem update_HOVER_fly (s : Ship) (dt : ℝ) (a : Aircraft)
    (h : a.state = AircraftState.HOVER)
    (hr : a.hoverRaduis + 0.000001 < (a.targetPosition - a.position).length) :
    a.update s dt =
      { a with
        state := AircraftState.FLY
        linearSpeed := if a.linearSpeed + a.acceleration * dt ≤ params.aircraft.LINEAR_SPEED
          then a.linearSpeed + a.acceleration * dt else params.aircraft.LINEAR_SPEED
        flightTime := a.flightTime + dt } := by
  rw [Aircraft.update]
  simp only [h]
  rw [Aircraft.hover, Aircraft.simulateFlight]
  simp only [if_pos hr]
  rw [if_neg]
  simp [Aircraft.inFlight]

theorem update_HOVER_stay (s : Ship) (dt : ℝ) (a : Aircraft)
    (h : a.state = AircraftState.HOVER)
    (hr : (a.targetPosition - a.position).length ≤ a.hoverRaduis + 0.000001)
    (hft : a.flightTime < params.aircraft.FLIGHT_TIME) :
    a.update s dt =
      { a with
        angle := a.hoverAngle + params.PI / 2
        hoverAngle := a.hoverAngle + params.aircraft.ANGULAR_SPEED * dt
        position := ⟨a.targetPosition.x +
            Real.cos (a.hoverAngle + params.aircraft.ANGULAR_SPEED * dt) * a.hoverRaduis,
          a.targetPosition.y +
            Real.sin (a.hoverAngle + params.aircraft.ANGULAR_SPEED * dt) * a.hoverRaduis⟩
        linearSpeed := if a.linearSpeed + a.acceleration * dt ≤ params.aircraft.LINEAR_SPEED
          then a.linearSpeed + a.acceleration * dt else params.aircraft.LINEAR_SPEED
        flightTime := a.flightTime + dt } := by
  rw [Aircraft.update]
  simp only [h]
  rw [Aircraft.hover, Aircraft.simulateFlight]
  simp only [if_neg (not_lt.mpr hr), if_neg (not_le.mpr hft)]
  rw [if_neg]
  · rw [h]
  · simp [Aircraft.inFlight, h]

theorem update_HOVER_land (s : Ship) (dt : ℝ) (a : Aircraft)
    (h : a.state = AircraftState.HOVER)
    (hr : (a.targetPosition - a.position).length ≤ a.hoverRaduis + 0.000001)
    (hft : params.aircraft.FLIGHT_TIME ≤ a.flightTime) :
    a.update s dt =
      { a with
        state := AircraftState.LAND
        angle := a.hoverAngle + params.PI / 2
        hoverAngle := a.hoverAngle + params.aircraft.ANGULAR_SPEED * dt
        position := ⟨a.targetPosition.x +
            Real.cos (a.hoverAngle + params.aircraft.ANGULAR_SPEED * dt) * a.hoverRaduis,
          a.targetPosition.y +
            Real.sin (a.hoverAngle + params.aircraft.ANGULAR_SPEED * dt) * a.hoverRaduis⟩
        linearSpeed := if a.linearSpeed + a.acceleration * dt ≤ params.aircraft.LINEAR_SPEED
          then a.linearSpeed + a.acceleration * dt else params.aircraft.LINEAR_SPEED
        flightTime := a.flightTime + dt } := by
  rw [Aircraft.update]
  simp only [h]
  rw [Aircraft.hover, Aircraft.simulateFlight]
  simp only [if_neg (not_lt.mpr hr), if_pos hft]
  rw [if_neg]
  simp [Aircraft.inFlight]

theorem update_LAND_move (s : Ship) (dt : ℝ) (a : Aircraft)
    (h : a.state = AircraftState.LAND)
    (hd : 0.1 < (s.position - a.position).length) :
    a.update s dt =
      { a with
        angle := atan2 (s.position.y - a.position.y) (s.position.x - a.position.x)
        position := a.position + (a.linearSpeed * dt) •
          (⟨Real.cos (atan2 (s.position.y - a.position.y) (s.position.x - a.position.x)),
            Real.sin (atan2 (s.position.y - a.position.y) (s.position.x - a.position.x))⟩ :
            Vector2)
        linearSpeed := if a.linearSpeed + a.acceleration * dt ≤ params.aircraft.LINEAR_SPEED
          then a.linearSpeed + a.acceleration * dt else params.aircraft.LINEAR_SPEED
        flightTime := a.flightTime + dt } := by
  rw [Aircraft.update]
  simp only [h]
  rw [Aircraft.land, Aircraft.simulateFlight]
  simp only [if_neg (not_le.mpr hd)]
  rw [if_neg]
  · rw [h]
  · simp [Aircraft.inFlight, h]

theorem update_LAND_refuel (s : Ship) (dt : ℝ) (a : Aircraft)
    (h : a.state = AircraftState.LAND)
    (hd : (s.position - a.position).length ≤ 0.1) :
    a.update s dt =
      { a with
        state := AircraftState.REFUEL
        landingTime := a.flightTime
        meshAlive := false
        angle := atan2 (s.position.y - a.position.y) (s.position.x - a.position.x)
        position := a.position + (a.linearSpeed * dt) •
          (⟨Real.cos (atan2 (s.position.y - a.position.y) (s.position.x - a.position.x)),
            Real.sin (atan2 (s.position.y - a.position.y) (s.position.x - a.position.x))⟩ :
            Vector2) } := by
  rw [Aircraft.update]
  simp only [h]
  rw [Aircraft.land, Aircraft.simulateFlight]
  simp only [if_pos hd]
  rw [if_pos]
  simp [Aircraft.inFlight]

theorem update_REFUEL_stay (s : Ship) (dt : ℝ) (a : Aircraft)
    (h : a.state = AircraftState.REFUEL)
    (hlt : a.landingTime + dt ≤ a.flightTime + params.aircraft.REFUEL_TIME) :
    a.update s dt = { a with landingTime := a.landingTime + dt } := by
  rw [Aircraft.update]
  simp only [h]
  rw [Aircraft.refuel, Aircraft.simulateFlight]
  simp only [if_neg (not_lt.mpr hlt)]
  rw [if_pos]
  · rw [h]
  · simp [Aircraft.inFlight, h]

theorem update_REFUEL_idle (s : Ship) (dt : ℝ) (a : Aircraft)
    (h : a.state = AircraftState.REFUEL)
    (hlt : a.flightTime + params.aircraft.REFUEL_TIME < a.landingTime + dt) :
    a.update s dt =
      { a with
        state := AircraftState.IDLE
        linearSpeed := 0
        flightTime := 0
        landingTime := 0 } := by
  rw [Aircraft.update]
  simp only [h]
  rw [Aircraft.refuel, Aircraft.simulateFlight]
  simp only [if_pos hlt]
  rw [if_pos]
  simp [Aircraft.inFlight]

/-! ### Game-level projections and the initial ship -/

theorem Game.update_ship (dt : ℝ) (g : Game) : (g.update dt).ship = g.ship.update dt := rfl

theorem Game.update_plane (dt : ℝ) (g : Game) (i : Fin 5) :
    (g.update dt).planes i = (g.planes i).update (g.ship.update dt) dt := rfl

/-- The ship right after `game::init` at process start. -/
def shipInit : Ship := Ship.startup.init

theorem shipInit_eq :
    shipInit = { meshNonNull := true
                 position := ⟨0, 0⟩
                 angle := 0
                 linearSpeed := 0
                 input := fun _ => false } := rfl

/-- With no key held, `Ship::update` leaves the initial ship unchanged. -/
theorem shipInit_update (dt : ℝ) : Ship.update dt shipInit = shipInit := by
  rw [Ship.update, shipInit_eq]
  norm_num
  ext
  all_goals simp

/-! ### Claims C7, C9, C10 -/

/-- C7: if neither the forward key nor the backward key is held, a
`Ship::update(dt)` call leaves the heading angle unchanged, regardless of the
left/right keys. -/
theorem c7_no_turn_without_motion (s : Ship) (dt : ℝ)
    (hf : s.input Key.FORWARD = false) (hb : s.input Key.BACKWARD = false) :
    (s.update dt).angle = s.angle := by
  rw [Ship.update]
  simp only [hf, hb]
  norm_num

/-- Witness for C7 at the startup ship and dt = 1. -/
theorem c7_witness :
    Ship.startup.input Key.FORWARD = false ∧ Ship.startup.input Key.BACKWARD = false ∧
      (Ship.startup.update 1).angle = Ship.startup.angle :=
  ⟨rfl, rfl, c7_no_turn_without_motion Ship.startup 1 rfl rfl⟩

/-- C9: after any `Ship::update(dt)` the linear speed is +0.5 if forward is
held, else -0.5 if backward is held, else 0 — a pure function of the held
keys, independent of the speed before the call. -/
theorem c9_ship_speed_memoryless (s : Ship) (dt : ℝ) :
    (s.update dt).linearSpeed =
      if s.input Key.FORWARD then (0.5 : ℝ)
      else if s.input Key.BACKWARD then -(0.5 : ℝ) else 0 := rfl

/-- C10: `Aircraft::setTarget` only replaces the target position; all other
fields — in particular the state — are unchanged, so it triggers no state
transition by itself. -/
theorem c10_setTarget_frame (a : Aircraft) (p : Vector2) :
    a.setTarget p = { a with targetPosition := p } ∧ (a.setTarget p).state = a.state :=
  ⟨rfl, rfl⟩

/-! ### Claim C6 -/

/-- C6: on the FLY-to-HOVER transition the hover angle is set to the current
heading plus the source's π constant; a HOVER update that stays in HOVER sets
the heading to `hoverAngle + π/2`, advances `hoverAngle` by `2.5·dt`, and
places the aircraft at `target + hoverRadius·(cos, sin)` of the advanced
angle; and HOVER is left for FLY exactly when the distance to the target
exceeds `hoverRadius + 1e-6`. -/
theorem c6_hover_geometry (s : Ship) (dt : ℝ) (a : Aircraft) :
    (a.state = AircraftState.FLY →
      (a.targetPosition - a.position).length ≤ a.hoverRaduis →
      (a.update s dt).state = AircraftState.HOVER ∧
        (a.update s dt).hoverAngle = a.angle + params.PI) ∧
    (a.state = AircraftState.HOVER →
      (a.targetPosition - a.position).length ≤ a.hoverRaduis + 0.000001 →
      a.flightTime < params.aircraft.FLIGHT_TIME →
      (a.update s dt).state = AircraftState.HOVER ∧
        (a.update s dt).angle = a.hoverAngle + params.PI / 2 ∧
        (a.update s dt).hoverAngle = a.hoverAngle + params.aircraft.ANGULAR_SPEED * dt ∧
        (a.update s dt).position = ⟨a.targetPosition.x +
            Real.cos (a.hoverAngle + params.aircraft.ANGULAR_SPEED * dt) * a.hoverRaduis,
          a.targetPosition.y +
            Real.sin (a.hoverAngle + params.aircraft.ANGULAR_SPEED * dt) * a.hoverRaduis⟩) ∧
    (a.state = AircraftState.HOVER →
      ((a.update s dt).state = AircraftState.FLY ↔
        a.hoverRaduis + 0.000001 < (a.targetPosition - a.position).length)) := by
  refine ⟨fun h hr => ?_, fun h hr hft => ?_, fun h => ?_⟩
  · rw [update_FLY_hover s dt a h hr]
    exact ⟨rfl, rfl⟩
  · rw [update_HOVER_stay s dt a h hr hft]
    exact ⟨h, rfl, rfl, rfl⟩
  · constructor
    · intro hfly
      by_contra hle
      push_neg at hle
      rcases lt_or_le a.flightTime params.aircraft.FLIGHT_TIME with hft | hft
      · rw [update_HOVER_stay s dt a h hle hft] at hfly
        simp only [h] at hfly
        exact absurd hfly (by simp)
      · rw [update_HOVER_land s dt a h hle hft] at hfly
        exact absurd hfly (by simp)
    · intro hgt
      rw [update_HOVER_fly s dt a h hgt]

/-- A concrete aircraft in FLY over its target, for the C6 witness. -/
def c6AFly : Aircraft := { Aircraft.startup.init with state := AircraftState.FLY }

/-- A concrete aircraft in HOVER over its target, for the C6 witness. -/
def c6AHover : Aircraft := { Aircraft.startup.init with state := AircraftState.HOVER }

/-- Witness for C6, discharging all three implications at concrete inputs. -/
theorem c6_witness :
    ((c6AFly.update Ship.startup 1).state = AircraftState.HOVER ∧
      (c6AFly.update Ship.startup 1).hoverAngle = c6AFly.angle + params.PI) ∧
    ((c6AHover.update Ship.startup 1).state = AircraftState.HOVER ∧
      (c6AHover.update Ship.startup 1).angle = c6AHover.hoverAngle + params.PI / 2 ∧
      (c6AHover.update Ship.startup 1).hoverAngle =
        c6AHover.hoverAngle + params.aircraft.ANGULAR_SPEED * 1 ∧
      (c6AHover.update Ship.startup 1).position = ⟨c6AHover.targetPosition.x +
          Real.cos (c6AHover.hoverAngle + params.aircraft.ANGULAR_SPEED * 1) * c6AHover.hoverRaduis,
        c6AHover.targetPosition.y +
          Real.sin (c6AHover.hoverAngle + params.aircraft.ANGULAR_SPEED * 1) * c6AHover.hoverRaduis⟩) ∧
    ((c6AHover.update Ship.startup 1).state = AircraftState.FLY ↔
      c6AHover.hoverRaduis + 0.000001 < (c6AHover.targetPosition - c6AHover.position).length) := by
  have hlenF : (c6AFly.targetPosition - c6AFly.position).length = 0 := by
    simp [c6AFly, Aircraft.startup, Aircraft.init, Vector2.length]
  have hlenH : (c6AHover.targetPosition - c6AHover.position).length = 0 := by
    simp [c6AHover, Aircraft.startup, Aircraft.init, Vector2.length]
  refine ⟨(c6_hover_geometry Ship.startup 1 c6AFly).1 rfl ?_,
    (c6_hover_geometry Ship.startup 1 c6AHover).2.1 rfl ?_ ?_,
    (c6_hover_geometry Ship.startup 1 c6AHover).2.2 rfl⟩
  · rw [hlenF]
    norm_num [c6AFly, Aircraft.startup, Aircraft.init]
  · rw [hlenH]
    norm_num [c6AHover, Aircraft.startup, Aircraft.init]
  · norm_num [c6AHover, Aircraft.startup, Aircraft.init, params.aircraft.FLIGHT_TIME]

/-! ### Claim C8 -/

theorem finRange_five : List.finRange 5 = [0, 1, 2, 3, 4] := rfl

theorem mouseClicked_right_planes (g : Game) (wp : Vector2) :
    (g.mouseClicked wp false).planes = launchFirst g.ship g.planes [0, 1, 2, 3, 4] := by
  rw [Game.mouseClicked, Ship.mouseClicked, if_neg (by simp), finRange_five]

/-- The game after `init` and two consecutive right clicks. -/
def c8TwoClicks : Game :=
  ((Game.startup.init).mouseClicked ⟨0, 0⟩ false).mouseClicked ⟨0, 0⟩ false

/-- C8: a non-left click launches exactly the first aircraft in collection
order with `readyToFly()`, leaving every other aircraft untouched, and does
nothing if none is ready; in particular after `init` (five IDLE aircraft) two
consecutive right clicks leave planes 0 and 1 in TAKEOFF and planes 2, 3, 4
in IDLE. -/
theorem c8_right_click_launches_first :
    (∀ (g : Game) (wp : Vector2) (i : Fin 5),
      (g.planes i).readyToFly → (∀ j, j < i → ¬(g.planes j).readyToFly) →
        (g.mouseClicked wp false).planes i = (g.planes i).launch g.ship ∧
        ∀ k, k ≠ i → (g.mouseClicked wp false).planes k = g.planes k) ∧
    (∀ (g : Game) (wp : Vector2), (∀ j, ¬(g.planes j).readyToFly) →
      g.mouseClicked wp false = g) ∧
    ((c8TwoClicks.planes 0).state = AircraftState.TAKEOFF ∧
      (c8TwoClicks.planes 1).state = AircraftState.TAKEOFF ∧
      (c8TwoClicks.planes 2).state = AircraftState.IDLE ∧
      (c8TwoClicks.planes 3).state = AircraftState.IDLE ∧
      (c8TwoClicks.planes 4).state = AircraftState.IDLE) := by
  refine ⟨?_, ?_, ?_, ?_, ?_, ?_, ?_⟩
  · intro g wp i h hmin
    have hp := mouseClicked_right_planes g wp
    fin_cases i
    · have hr : (g.planes 0).readyToFly := h
      refine ⟨by rw [hp]; simp [launchFirst, hr], fun k hk => ?_⟩
      have hk0 : k ≠ 0 := hk
      rw [hp]
      simp [launchFirst, hr, Function.update_noteq hk0]
    · have hr : (g.planes 1).readyToFly := h
      have h0 := hmin 0 (by decide)
      refine ⟨by rw [hp]; simp [launchFirst, hr, h0], fun k hk => ?_⟩
      have hk1 : k ≠ 1 := hk
      rw [hp]
      simp [launchFirst, hr, h0, Function.update_noteq hk1]
    · have hr : (g.planes 2).readyToFly := h
      have h0 := hmin 0 (by decide)
      have h1 := hmin 1 (by decide)
      refine ⟨by rw [hp]; simp [launchFirst, hr, h0, h1], fun k hk => ?_⟩
      have hk2 : k ≠ 2 := hk
      rw [hp]
      simp [launchFirst, hr, h0, h1, Function.update_noteq hk2]
    · have hr : (g.planes 3).readyToFly := h
      have h0 := hmin 0 (by decide)
      have h1 := hmin 1 (by decide)
      have h2 := hmin 2 (by decide)
      refine ⟨by rw [hp]; simp [launchFirst, hr, h0, h1, h2], fun k hk => ?_⟩
      have hk3 : k ≠ 3 := hk
      rw [hp]
      simp [launchFirst, hr, h0, h1, h2, Function.update_noteq hk3]
    · have hr : (g.planes 4).readyToFly := h
      have h0 := hmin 0 (by decide)
      have h1 := hmin 1 (by decide)
      have h2 := hmin 2 (by decide)
      have h3 := hmin 3 (by decide)
      refine ⟨by rw [hp]; simp [launchFirst, hr, h0, h1, h2, h3], fun k hk => ?_⟩
      have hk4 : k ≠ 4 := hk
      rw [hp]
      simp [launchFirst, hr, h0, h1, h2, h3, Function.update_noteq hk4]
  · intro g wp h
    have hfix : launchFirst g.ship g.planes [0, 1, 2, 3, 4] = g.planes := by
      simp [launchFirst, h 0, h 1, h 2, h 3, h 4]
    ext1
    · rfl
    · rw [mouseClicked_right_planes g wp, hfix]
  · rfl
  · rfl
  · rfl
  · rfl
  · rfl

/-- Witness for C8 at the freshly initialized game: the first right click
launches plane 0 and leaves plane 1 untouched. -/
theorem c8_witness :
    ((Game.startup.init).planes 0).readyToFly ∧
      ((Game.startup.init).mouseClicked ⟨0, 0⟩ false).planes 0 =
        ((Game.startup.init).planes 0).launch (Game.startup.init).ship ∧
      ((Game.startup.init).mouseClicked ⟨0, 0⟩ false).planes 1 =
        (Game.startup.init).planes 1 := by
  have h := (c8_right_click_launches_first.1 (Game.startup.init) ⟨0, 0⟩ 0 rfl
    (fun j hj => absurd hj (by simp [Fin.lt_def, Fin.le_def])))
  exact ⟨rfl, h.1, h.2 1 (by decide)⟩

/-! ### Reachable-state invariant -/

/-- Inductive invariant on a single aircraft, maintained by every operation
of the public game interface. -/
def GoodAircraft (a : Aircraft) : Prop :=
  a.acceleration = 1 ∧
  a.takeoffTime = 2 ∧
  0 ≤ a.linearSpeed ∧
  a.linearSpeed ≤ 2 ∧
  (a.state = AircraftState.IDLE → a.linearSpeed = 0 ∧ a.flightTime = 0) ∧
  (a.inFlight → a.meshNonNull = true ∧ a.meshAlive = true) ∧
  ((a.state = AircraftState.IDLE ∨ a.state = AircraftState.REFUEL) → a.meshAlive = false)

theorem good_init_startup : GoodAircraft Aircraft.startup.init :=
  ⟨rfl, rfl, le_refl 0, show (0 : ℝ) ≤ 2 by norm_num, fun _ => ⟨rfl, rfl⟩,
   fun hin => absurd rfl hin.1, fun _ => rfl⟩

theorem good_update (s : Ship) (dt : ℝ) (a : Aircraft) (hdt : 0 ≤ dt)
    (h : GoodAircraft a) : GoodAircraft (a.update s dt) := by
  obtain ⟨hacc, htot, hsp0, hsp2, hidle, hmesh, halive⟩ := h
  have hL : params.aircraft.LINEAR_SPEED = 2 := rfl
  have hclamp : 0 ≤ (if a.linearSpeed + a.acceleration * dt ≤ params.aircraft.LINEAR_SPEED
      then a.linearSpeed + a.acceleration * dt else params.aircraft.LINEAR_SPEED) ∧
      (if a.linearSpeed + a.acceleration * dt ≤ params.aircraft.LINEAR_SPEED
      then a.linearSpeed + a.acceleration * dt else params.aircraft.LINEAR_SPEED) ≤ 2 := by
    rw [hL, hacc]
    split_ifs with hc
    · exact ⟨by nlinarith, hc⟩
    · norm_num
  cases hst : a.state with
  | IDLE =>
    rw [update_IDLE s dt a hst]
    exact ⟨hacc, htot, hsp0, hsp2, hidle, hmesh, halive⟩
  | TAKEOFF =>
    have hin : a.inFlight := by rw [Aircraft.inFlight, hst]; simp
    obtain ⟨hm, ha⟩ := hmesh hin
    rcases lt_or_le a.flightTime a.takeoffTime with hft | hft
    · rw [update_TAKEOFF_stay s dt a hst hft]
      refine ⟨hacc, htot, hclamp.1, hclamp.2, fun hi => ?_, fun _ => ⟨hm, ha⟩, fun hia => ?_⟩
      · have hi2 : a.state = AircraftState.IDLE := hi
        rw [hst] at hi2
        cases hi2
      · have hia2 : a.state = AircraftState.IDLE ∨ a.state = AircraftState.REFUEL := hia
        rw [hst] at hia2
        rcases hia2 with hx | hx <;> cases hx
    · rw [update_TAKEOFF_fly s dt a hst hft]
      refine ⟨hacc, htot, hclamp.1, hclamp.2, fun hi => ?_, fun _ => ⟨hm, ha⟩, fun hia => ?_⟩
      · simp at hi
      · rcases hia with hx | hx <;> simp at hx
  | FLY =>
    have hin : a.inFlight := by rw [Aircraft.inFlight, hst]; simp
    obtain ⟨hm, ha⟩ := hmesh hin
    rcases le_or_lt ((a.targetPosition - a.position).length) a.hoverRaduis with hr | hr
    · rw [update_FLY_hover s dt a hst hr]
      refine ⟨hacc, htot, hclamp.1, hclamp.2, fun hi => ?_, fun _ => ⟨hm, ha⟩, fun hia => ?_⟩
      · simp at hi
      · rcases hia with hx | hx <;> simp at hx
    · rw [update_FLY_move s dt a hst hr]
      refine ⟨hacc, htot, hclamp.1, hclamp.2, fun hi => ?_, fun _ => ⟨hm, ha⟩, fun hia => ?_⟩
      · have hi2 : a.state = AircraftState.IDLE := hi
        rw [hst] at hi2
        cases hi2
      · have hia2 : a.state = AircraftState.IDLE ∨ a.state = AircraftState.REFUEL := hia
        rw [hst] at hia2
        rcases hia2 with hx | hx <;> cases hx
  | HOVER =>
    have hin : a.inFlight := by rw [Aircraft.inFlight, hst]; simp
    obtain ⟨hm, ha⟩ := hmesh hin
    rcases lt_or_le (a.hoverRaduis + 0.000001) ((a.targetPosition - a.position).length) with hr | hr
    · rw [update_HOVER_fly s dt a hst hr]
      refine ⟨hacc, htot, hclamp.1, hclamp.2, fun hi => ?_, fun _ => ⟨hm, ha⟩, fun hia => ?_⟩
      · simp at hi
      · rcases hia with hx | hx <;> simp at hx
    · rcases lt_or_le a.flightTime params.aircraft.FLIGHT_TIME with hft | hft
      · rw [update_HOVER_stay s dt a hst hr hft]
        refine ⟨hacc, htot, hclamp.1, hclamp.2, fun hi => ?_, fun _ => ⟨hm, ha⟩, fun hia => ?_⟩
        · have hi2 : a.state = AircraftState.IDLE := hi
          rw [hst] at hi2
          cases hi2
        · have hia2 : a.state = AircraftState.IDLE ∨ a.state = AircraftState.REFUEL := hia
          rw [hst] at hia2
          rcases hia2 with hx | hx <;> cases hx
      · rw [update_HOVER_land s dt a hst hr hft]
        refine ⟨hacc, htot, hclamp.1, hclamp.2, fun hi => ?_, fun _ => ⟨hm, ha⟩, fun hia => ?_⟩
        · simp at hi
        · rcases hia with hx | hx <;> simp at hx
  | LAND =>
    have hin : a.inFlight := by rw [Aircraft.inFlight, hst]; simp
    obtain ⟨hm, ha⟩ := hmesh hin
    rcases le_or_lt ((s.position - a.position).length) 0.1 with hd | hd
    · rw [update_LAND_refuel s dt a hst hd]
      refine ⟨hacc, htot, hsp0, hsp2, fun hi => ?_, fun hin2 => ?_, fun _ => rfl⟩
      · simp at hi
      · exact absurd rfl hin2.2
    · rw [update_LAND_move s dt a hst hd]
      refine ⟨hacc, htot, hclamp.1, hclamp.2, fun hi => ?_, fun _ => ⟨hm, ha⟩, fun hia => ?_⟩
      · have hi2 : a.state = AircraftState.IDLE := hi
        rw [hst] at hi2
        cases hi2
      · have hia2 : a.state = AircraftState.IDLE ∨ a.state = AircraftState.REFUEL := hia
        rw [hst] at hia2
        rcases hia2 with hx | hx <;> cases hx
  | REFUEL =>
    rcases le_or_lt (a.landingTime + dt) (a.flightTime + params.aircraft.REFUEL_TIME) with hlt | hlt
    · rw [update_REFUEL_stay s dt a hst hlt]
      refine ⟨hacc, htot, hsp0, hsp2, fun hi => ?_, fun hin2 => ?_, fun _ => ?_⟩
      · have hi2 : a.state = AircraftState.IDLE := hi
        rw [hst] at hi2
        cases hi2
      · have hin3 : a.inFlight := hin2
        rw [Aircraft.inFlight, hst] at hin3
        exact absurd rfl hin3.2
      · exact halive (Or.inr hst)
    · rw [update_REFUEL_idle s dt a hst hlt]
      refine ⟨hacc, htot, le_refl 0, by norm_num, fun _ => ⟨rfl, rfl⟩, fun hin2 => ?_, fun _ => ?_⟩
      · exact absurd rfl hin2.1
      · exact halive (Or.inr hst)

theorem good_launch (s : Ship) (a : Aircraft) (h : GoodAircraft a) :
    GoodAircraft (a.launch s) := by
  obtain ⟨hacc, htot, hsp0, hsp2, hidle, hmesh, halive⟩ := h
  refine ⟨hacc, htot, hsp0, hsp2, fun hi => ?_, fun _ => ⟨rfl, rfl⟩, fun hia => ?_⟩
  · simp [Aircraft.launch] at hi
  · rcases hia with hx | hx <;> simp [Aircraft.launch] at hx

theorem good_setTarget (p : Vector2) (a : Aircraft) (h : GoodAircraft a) :
    GoodAircraft (a.setTarget p) := h

theorem good_launchFirst (s : Ship) (planes : Fin 5 → Aircraft) (l : List (Fin 5))
    (h : ∀ i, GoodAircraft (planes i)) : ∀ i, GoodAircraft (launchFirst s planes l i) := by
  induction l with
  | nil => exact h
  | cons j rest ih =>
    intro i
    rw [launchFirst]
    split_ifs with hj
    · rcases eq_or_ne i j with rfl | hij
      · rw [Function.update_same]
        exact good_launch s (planes i) (h i)
      · rw [Function.update_noteq hij]
        exact h i
    · exact ih i

/-- Every aircraft of a reachable game state satisfies the invariant. -/
theorem reachable_good (g : Game) (hg : Reachable g) : ∀ i, GoodAircraft (g.planes i) := by
  induction hg with
  | init => exact fun i => good_init_startup
  | update g dt hg hdt ih =>
    intro i
    rw [Game.update_plane]
    exact good_update (g.ship.update dt) dt (g.planes i) (le_of_lt hdt) (ih i)
  | keyPressed g k hg ih => exact ih
  | keyReleased g k hg ih => exact ih
  | mouseClicked g wp b hg ih =>
    intro i
    cases b with
    | true => exact good_setTarget wp (g.planes i) (ih i)
    | false =>
      rw [show (g.mouseClicked wp false).planes = _ from mouseClicked_right_planes g wp]
      exact good_launchFirst g.ship g.planes [0, 1, 2, 3, 4] ih i

/-! ### Claim C5 -/

/-- C5: for any reachable game state and any plane in IDLE, `launch()`
creates the visual, copies the owning ship's position and angle, leaves the
elapsed-flight timer equal to 0 (launch does not touch it, and it is 0 in
every reachable IDLE state), keeps the takeoff threshold at 2, and enters
TAKEOFF. -/
theorem c5_launch_from_idle (g : Game) (hg : Reachable g) (i : Fin 5)
    (hst : (g.planes i).state = AircraftState.IDLE) :
    ((g.planes i).launch g.ship).meshNonNull = true ∧
    ((g.planes i).launch g.ship).meshAlive = true ∧
    ((g.planes i).launch g.ship).position = g.ship.position ∧
    ((g.planes i).launch g.ship).angle = g.ship.angle ∧
    ((g.planes i).launch g.ship).flightTime = 0 ∧
    ((g.planes i).launch g.ship).takeoffTime = 2 ∧
    ((g.planes i).launch g.ship).state = AircraftState.TAKEOFF := by
  obtain ⟨hacc, htot, hsp0, hsp2, hidle, hmesh, halive⟩ := reachable_good g hg i
  exact ⟨rfl, rfl, rfl, rfl, (hidle hst).2, htot, rfl⟩

/-- Witness for C5 at the freshly initialized game and plane 0. -/
theorem c5_witness :
    ((Game.startup.init).planes 0).state = AircraftState.IDLE ∧
      (((Game.startup.init).planes 0).launch (Game.startup.init).ship).flightTime = 0 ∧
      (((Game.startup.init).planes 0).launch (Game.startup.init).ship).takeoffTime = 2 ∧
      (((Game.startup.init).planes 0).launch (Game.startup.init).ship).state
        = AircraftState.TAKEOFF := by
  have h := c5_launch_from_idle Game.startup.init Reachable.init 0 rfl
  exact ⟨rfl, h.2.2.2.2.1, h.2.2.2.2.2.1, h.2.2.2.2.2.2⟩

/-! ### Claims C2 and C3, amended invariants -/

/-- C2 (amended): every reachable aircraft keeps its speed in [0, 2], and the
speed is exactly 0 in IDLE — in particular immediately after the
REFUEL-to-IDLE transition; a REFUEL-state aircraft, however, retains its
landing speed, which the original claim ruled out. -/
theorem c2_amended_speed_invariant (g : Game) (hg : Reachable g) (i : Fin 5) :
    0 ≤ (g.planes i).linearSpeed ∧ (g.planes i).linearSpeed ≤ 2 ∧
      ((g.planes i).state = AircraftState.IDLE → (g.planes i).linearSpeed = 0) := by
  obtain ⟨hacc, htot, hsp0, hsp2, hidle, hmesh, halive⟩ := reachable_good g hg i
  exact ⟨hsp0, hsp2, fun h => (hidle h).1⟩

/-- Witness for C2 (amended) at the freshly initialized game. -/
theorem c2_amended_witness :
    0 ≤ ((Game.startup.init).planes 0).linearSpeed ∧
      ((Game.startup.init).planes 0).linearSpeed ≤ 2 ∧
      (((Game.startup.init).planes 0).state = AircraftState.IDLE →
        ((Game.startup.init).planes 0).linearSpeed = 0) :=
  c2_amended_speed_invariant Game.startup.init Reachable.init 0

/-- C3 (amended): for every reachable aircraft, `inFlight()` implies the
visual handle is non-null and the visual exists; `state == IDLE` implies the
visual no longer exists, but the stored handle may be a stale non-null
pointer after a completed flight cycle (the original claim asserted it is
null). -/
theorem c3_amended_visual_invariant (g : Game) (hg : Reachable g) (i : Fin 5) :
    ((g.planes i).inFlight →
      (g.planes i).meshNonNull = true ∧ (g.planes i).meshAlive = true) ∧
    ((g.planes i).state = AircraftState.IDLE → (g.planes i).meshAlive = false) := by
  obtain ⟨hacc, htot, hsp0, hsp2, hidle, hmesh, halive⟩ := reachable_good g hg i
  exact ⟨hmesh, fun h => halive (Or.inl h)⟩

/-- Witness for C3 (amended): after `init` plus one right click, plane 0 is
in flight and its visual exists. -/
theorem c3_amended_witness :
    (((Game.startup.init).mouseClicked ⟨0, 0⟩ false).planes 0).inFlight ∧
      (((Game.startup.init).mouseClicked ⟨0, 0⟩ false).planes 0).meshNonNull = true ∧
      (((Game.startup.init).mouseClicked ⟨0, 0⟩ false).planes 0).meshAlive = true := by
  have hin : (((Game.startup.init).mouseClicked ⟨0, 0⟩ false).planes 0).inFlight :=
    ⟨by decide, by decide⟩
  exact ⟨hin, (c3_amended_visual_invariant _
    (Reachable.mouseClicked _ ⟨0, 0⟩ false Reachable.init) 0).1 hin⟩

/-! ### Claim C4 -/

/-- C4 (amended): `deinit` followed by `init` restores the ship's visual,
position, angle and key flags and every aircraft's pose, speed, timers,
hover data and state to the fresh-start values; the visuals of aircraft that
were in flight are freed like at a fresh start.  Not restored (and excluded
here): the ship's linear speed, each aircraft's target position, and the
stale visual handle of aircraft that were not in flight at `deinit`. -/
theorem c4_amended_deinit_init (g : Game) :
    ((g.deinit).init).ship.meshNonNull = (Game.startup.init).ship.meshNonNull ∧
    ((g.deinit).init).ship.position = (Game.startup.init).ship.position ∧
    ((g.deinit).init).ship.angle = (Game.startup.init).ship.angle ∧
    ((g.deinit).init).ship.input = (Game.startup.init).ship.input ∧
    ∀ i : Fin 5,
      (((g.deinit).init).planes i).position = ((Game.startup.init).planes i).position ∧
      (((g.deinit).init).planes i).angle = ((Game.startup.init).planes i).angle ∧
      (((g.deinit).init).planes i).acceleration
        = ((Game.startup.init).planes i).acceleration ∧
      (((g.deinit).init).planes i).linearSpeed
        = ((Game.startup.init).planes i).linearSpeed ∧
      (((g.deinit).init).planes i).takeoffTime
        = ((Game.startup.init).planes i).takeoffTime ∧
      (((g.deinit).init).planes i).flightTime
        = ((Game.startup.init).planes i).flightTime ∧
      (((g.deinit).init).planes i).landingTime
        = ((Game.startup.init).planes i).landingTime ∧
      (((g.deinit).init).planes i).hoverRaduis
        = ((Game.startup.init).planes i).hoverRaduis ∧
      (((g.deinit).init).planes i).hoverAngle
        = ((Game.startup.init).planes i).hoverAngle ∧
      (((g.deinit).init).planes i).state = ((Game.startup.init).planes i).state ∧
      ((g.planes i).inFlight →
        (((g.deinit).init).planes i).meshNonNull
            = ((Game.startup.init).planes i).meshNonNull ∧
          (((g.deinit).init).planes i).meshAlive
            = ((Game.startup.init).planes i).meshAlive) := by
  refine ⟨rfl, rfl, rfl, rfl, fun i => ?_⟩
  refine ⟨rfl, rfl, rfl, rfl, rfl, rfl, rfl, rfl, rfl, rfl, fun hin => ?_⟩
  show ((if (g.planes i).inFlight then (g.planes i).deinit else g.planes i).init).meshNonNull
        = _ ∧
      ((if (g.planes i).inFlight then (g.planes i).deinit else g.planes i).init).meshAlive = _
  rw [if_pos hin]
  exact ⟨rfl, rfl⟩

/-- Witness for C4 (amended): after a right click plane 0 is in flight, and
deinit-then-init restores its visual fields to the fresh values. -/
theorem c4_amended_witness :
    ((((Game.startup.init).mouseClicked ⟨0, 0⟩ false).planes 0).inFlight ∧
      (((((Game.startup.init).mouseClicked ⟨0, 0⟩ false).deinit).init).planes 0).meshNonNull
        = ((Game.startup.init).planes 0).meshNonNull) ∧
    ((((Game.startup.init).mouseClicked ⟨0, 0⟩ false).deinit).init).ship.position
      = (Game.startup.init).ship.position := by
  have hin : (((Game.startup.init).mouseClicked ⟨0, 0⟩ false).planes 0).inFlight :=
    ⟨by decide, by decide⟩
  have h := c4_amended_deinit_init ((Game.startup.init).mouseClicked ⟨0, 0⟩ false)
  exact ⟨⟨hin, ((h.2.2.2.2 0).2.2.2.2.2.2.2.2.2.2 hin).1⟩, h.2.1⟩

/-! ### A concrete run reaching REFUEL and back to IDLE (for C2 and C3) -/

theorem length_zero_sub_cos_sin (t : ℝ) :
    (⟨0 - Real.cos t, 0 - Real.sin t⟩ : Vector2).length = 1 := by
  rw [Vector2.length_mk,
    show (0 - Real.cos t) * (0 - Real.cos t) + (0 - Real.sin t) * (0 - Real.sin t)
      = Real.sin t ^ 2 + Real.cos t ^ 2 by ring,
    Real.sin_sq_add_cos_sq, Real.sqrt_one]

theorem length_zero_sub_smul_cos_sin (k t : ℝ) (hk : 0 ≤ k) :
    (⟨0 - k * Real.cos t, 0 - k * Real.sin t⟩ : Vector2).length = k := by
  rw [Vector2.length_mk,
    show (0 - k * Real.cos t) * (0 - k * Real.cos t)
        + (0 - k * Real.sin t) * (0 - k * Real.sin t)
      = k ^ 2 * (Real.sin t ^ 2 + Real.cos t ^ 2) by ring,
    Real.sin_sq_add_cos_sq, mul_one, Real.sqrt_sq hk]

theorem atan2_unit_dir (t : ℝ) :
    Real.cos (atan2 (0 - Real.sin t) (0 - Real.cos t)) = -Real.cos t ∧
    Real.sin (atan2 (0 - Real.sin t) (0 - Real.cos t)) = -Real.sin t := by
  have hnz : ¬((0 - Real.cos t) = 0 ∧ (0 - Real.sin t) = 0) := by
    rintro ⟨hx, hy⟩
    have h1 := Real.sin_sq_add_cos_sq t
    have hc : Real.cos t = 0 := by linarith
    have hs : Real.sin t = 0 := by linarith
    rw [hc, hs] at h1
    norm_num at h1
  refine ⟨?_, ?_⟩
  · rw [cos_atan2 _ _ hnz, length_zero_sub_cos_sin, div_one]
    ring
  · rw [sin_atan2, length_zero_sub_cos_sin, div_one]
    ring

theorem atan2_scaled_dir (k t : ℝ) (hk : 0 < k) :
    Real.cos (atan2 (0 - k * Real.sin t) (0 - k * Real.cos t)) = -Real.cos t ∧
    Real.sin (atan2 (0 - k * Real.sin t) (0 - k * Real.cos t)) = -Real.sin t := by
  have hnz : ¬((0 - k * Real.cos t) = 0 ∧ (0 - k * Real.sin t) = 0) := by
    rintro ⟨hx, hy⟩
    have h1 := Real.sin_sq_add_cos_sq t
    have hc : Real.cos t = 0 := by
      rcases mul_eq_zero.mp (show k * Real.cos t = 0 by linarith) with h | h
      · exact absurd h (ne_of_gt hk)
      · exact h
    have hs : Real.sin t = 0 := by
      rcases mul_eq_zero.mp (show k * Real.sin t = 0 by linarith) with h | h
      · exact absurd h (ne_of_gt hk)
      · exact h
    rw [hc, hs] at h1
    norm_num at h1
  have hk0 : k ≠ 0 := ne_of_gt hk
  refine ⟨?_, ?_⟩
  · rw [cos_atan2 _ _ hnz, length_zero_sub_smul_cos_sin k t (le_of_lt hk)]
    field_simp
    ring
  · rw [sin_atan2, length_zero_sub_smul_cos_sin k t (le_of_lt hk)]
    field_simp
    ring

/-- Plane-0 state template along the C2/C3 run (target at the origin). -/
def c2Mk (alive : Bool) (pos : Vector2) (ang ls ft lt ha : ℝ) (st : AircraftState) : Aircraft :=
  { meshNonNull := true
    meshAlive := alive
    position := pos
    angle := ang
    acceleration := 1
    linearSpeed := ls
    takeoffTime := 2
    flightTime := ft
    landingTime := lt
    targetPosition := ⟨0, 0⟩
    hoverRaduis := 1
    hoverAngle := ha
    state := st }

/-- The hover angle at which the C2/C3 run leaves HOVER. -/
def c2Theta : ℝ := params.PI + 169 / 8

def c2A0 : Aircraft := c2Mk true ⟨0, 0⟩ 0 0 0 0 0 AircraftState.TAKEOFF

def c2A1 : Aircraft := c2Mk true ⟨0, 0⟩ 0 2 2 0 0 AircraftState.TAKEOFF

def c2A2 : Aircraft := c2Mk true ⟨1 / 500, 0⟩ 0 2 (2001 / 1000) 0 0 AircraftState.FLY

def c2A3 : Aircraft :=
  c2Mk true ⟨1 / 500, 0⟩ 0 2 (3001 / 1000) 0 params.PI AircraftState.HOVER

def c2A4 : Aircraft :=
  c2Mk true ⟨Real.cos (params.PI + 20), Real.sin (params.PI + 20)⟩
    (params.PI + params.PI / 2) 2 (11001 / 1000) 0 (params.PI + 20) AircraftState.HOVER

def c2A5 : Aircraft :=
  c2Mk true ⟨Real.cos c2Theta, Real.sin c2Theta⟩
    (params.PI + 20 + params.PI / 2) 2 (11451 / 1000) 0 c2Theta AircraftState.LAND

def c2A6 : Aircraft :=
  c2Mk true ⟨1 / 10 * Real.cos c2Theta, 1 / 10 * Real.sin c2Theta⟩
    (atan2 (0 - Real.sin c2Theta) (0 - Real.cos c2Theta)) 2 (11901 / 1000) 0 c2Theta
    AircraftState.LAND

def c2A7 : Aircraft :=
  c2Mk false ⟨-(19 / 10) * Real.cos c2Theta, -(19 / 10) * Real.sin c2Theta⟩
    (atan2 (0 - 1 / 10 * Real.sin c2Theta) (0 - 1 / 10 * Real.cos c2Theta)) 2 (11901 / 1000)
    (11901 / 1000) c2Theta AircraftState.REFUEL

def c2A8 : Aircraft :=
  c2Mk false ⟨-(19 / 10) * Real.cos c2Theta, -(19 / 10) * Real.sin c2Theta⟩
    (atan2 (0 - 1 / 10 * Real.sin c2Theta) (0 - 1 / 10 * Real.cos c2Theta)) 0 0 0 c2Theta
    AircraftState.IDLE

theorem c2_step1 : Aircraft.update shipInit 2 c2A0 = c2A1 := by
  rw [update_TAKEOFF_stay shipInit 2 c2A0 rfl (by norm_num [c2A0, c2Mk])]
  simp only [c2A0, c2A1, c2Mk, shipInit_eq]
  ext <;> simp <;> norm_num [params.aircraft.LINEAR_SPEED]

theorem c2_step2 : Aircraft.update shipInit (1 / 1000) c2A1 = c2A2 := by
  rw [update_TAKEOFF_fly shipInit (1 / 1000) c2A1 rfl (by norm_num [c2A1, c2Mk])]
  simp only [c2A1, c2A2, c2Mk, shipInit_eq]
  ext <;> simp <;> norm_num [params.aircraft.LINEAR_SPEED]

theorem c2_step3 : Aircraft.update shipInit 1 c2A2 = c2A3 := by
  have hr : (c2A2.targetPosition - c2A2.position).length ≤ c2A2.hoverRaduis := by
    show (⟨(0 : ℝ) - 1 / 500, (0 : ℝ) - 0⟩ : Vector2).length ≤ 1
    rw [Vector2.length_mk,
      show ((0 : ℝ) - 1 / 500) * ((0 : ℝ) - 1 / 500) + ((0 : ℝ) - 0) * ((0 : ℝ) - 0)
        = (1 / 500 : ℝ) ^ 2 by norm_num,
      Real.sqrt_sq (by norm_num)]
    norm_num
  rw [update_FLY_hover shipInit 1 c2A2 rfl hr]
  simp only [c2A2, c2A3, c2Mk]
  ext <;> simp <;> norm_num [params.aircraft.LINEAR_SPEED]

theorem c2_step4 : Aircraft.update shipInit 8 c2A3 = c2A4 := by
  have hr : (c2A3.targetPosition - c2A3.position).length ≤ c2A3.hoverRaduis + 0.000001 := by
    show (⟨(0 : ℝ) - 1 / 500, (0 : ℝ) - 0⟩ : Vector2).length ≤ 1 + 0.000001
    rw [Vector2.length_mk,
      show ((0 : ℝ) - 1 / 500) * ((0 : ℝ) - 1 / 500) + ((0 : ℝ) - 0) * ((0 : ℝ) - 0)
        = (1 / 500 : ℝ) ^ 2 by norm_num,
      Real.sqrt_sq (by norm_num)]
    norm_num
  rw [update_HOVER_stay shipInit 8 c2A3 rfl hr
    (by norm_num [c2A3, c2Mk, params.aircraft.FLIGHT_TIME])]
  simp only [c2A3, c2A4, c2Mk]
  ext <;> simp <;> norm_num [params.aircraft.LINEAR_SPEED, params.aircraft.ANGULAR_SPEED]

theorem c2_step5 : Aircraft.update shipInit (9 / 20) c2A4 = c2A5 := by
  have hr : (c2A4.targetPosition - c2A4.position).length ≤ c2A4.hoverRaduis + 0.000001 := by
    show (⟨0 - Real.cos (params.PI + 20), 0 - Real.sin (params.PI + 20)⟩ : Vector2).length
      ≤ 1 + 0.000001
    rw [length_zero_sub_cos_sin]
    norm_num
  rw [update_HOVER_land shipInit (9 / 20) c2A4 rfl hr
    (by norm_num [c2A4, c2Mk, params.aircraft.FLIGHT_TIME])]
  simp only [c2A4, c2A5, c2Mk, c2Theta]
  ext <;> simp [params.aircraft.ANGULAR_SPEED, params.aircraft.LINEAR_SPEED]
  all_goals norm_num
  all_goals ring_nf

theorem c2_step6 : Aircraft.update shipInit (9 / 20) c2A5 = c2A6 := by
  have hd : (0.1 : ℝ) < (shipInit.position - c2A5.position).length := by
    show (0.1 : ℝ) < (⟨0 - Real.cos c2Theta, 0 - Real.sin c2Theta⟩ : Vector2).length
    rw [length_zero_sub_cos_sin]
    norm_num
  rw [update_LAND_move shipInit (9 / 20) c2A5 rfl hd]
  have hA : shipInit.position.y - c2A5.position.y = 0 - Real.sin c2Theta := rfl
  have hB : shipInit.position.x - c2A5.position.x = 0 - Real.cos c2Theta := rfl
  rw [hA, hB, (atan2_unit_dir c2Theta).1, (atan2_unit_dir c2Theta).2]
  simp only [c2A5, c2A6, c2Mk]
  ext <;> simp [params.aircraft.LINEAR_SPEED]
  all_goals ring_nf

theorem c2_step7 : Aircraft.update shipInit 1 c2A6 = c2A7 := by
  have hd : (shipInit.position - c2A6.position).length ≤ 0.1 := by
    show (⟨0 - 1 / 10 * Real.cos c2Theta, 0 - 1 / 10 * Real.sin c2Theta⟩ : Vector2).length
      ≤ 0.1
    rw [length_zero_sub_smul_cos_sin (1 / 10) c2Theta (by norm_num)]
    norm_num
  rw [update_LAND_refuel shipInit 1 c2A6 rfl hd]
  have hA : shipInit.position.y - c2A6.position.y = 0 - 1 / 10 * Real.sin c2Theta := by
    show (0 : ℝ) - 1 / 10 * Real.sin c2Theta = _
    rfl
  have hB : shipInit.position.x - c2A6.position.x = 0 - 1 / 10 * Real.cos c2Theta := by
    show (0 : ℝ) - 1 / 10 * Real.cos c2Theta = _
    rfl
  rw [hA, hB, (atan2_scaled_dir (1 / 10) c2Theta (by norm_num)).1,
    (atan2_scaled_dir (1 / 10) c2Theta (by norm_num)).2]
  simp only [c2A6, c2A7, c2Mk]
  ext <;> simp
  all_goals ring_nf

theorem c2_step8 : Aircraft.update shipInit 4 c2A7 = c2A8 := by
  rw [update_REFUEL_idle shipInit 4 c2A7 rfl
    (by norm_num [c2A7, c2Mk, params.aircraft.REFUEL_TIME])]
  simp only [c2A7, c2A8, c2Mk]

/-- One frame of the run: ship stays at `shipInit`, plane 0 advances. -/
theorem c2_chain (g : Game) (a b : Aircraft) (dt : ℝ)
    (hs : g.ship = shipInit) (hp : g.planes 0 = a)
    (hstep : Aircraft.update shipInit dt a = b) :
    (g.update dt).ship = shipInit ∧ (g.update dt).planes 0 = b := by
  refine ⟨?_, ?_⟩
  · rw [Game.update_ship, hs, shipInit_update]
  · rw [Game.update_plane, hp, hs, shipInit_update, hstep]

def c2Run0 : Game := (Game.startup.init).mouseClicked ⟨0, 0⟩ false

def c2Run1 : Game := c2Run0.update 2

def c2Run2 : Game := c2Run1.update (1 / 1000)

def c2Run3 : Game := c2Run2.update 1

def c2Run4 : Game := c2Run3.update 8

def c2Run5 : Game := c2Run4.update (9 / 20)

def c2Run6 : Game := c2Run5.update (9 / 20)

def c2Run7 : Game := c2Run6.update 1

def c2Run8 : Game := c2Run7.update 4

theorem c2_fact0 : c2Run0.ship = shipInit ∧ c2Run0.planes 0 = c2A0 := ⟨rfl, rfl⟩

theorem c2_fact1 : c2Run1.ship = shipInit ∧ c2Run1.planes 0 = c2A1 :=
  c2_chain c2Run0 c2A0 c2A1 2 c2_fact0.1 c2_fact0.2 c2_step1

theorem c2_fact2 : c2Run2.ship = shipInit ∧ c2Run2.planes 0 = c2A2 :=
  c2_chain c2Run1 c2A1 c2A2 (1 / 1000) c2_fact1.1 c2_fact1.2 c2_step2

theorem c2_fact3 : c2Run3.ship = shipInit ∧ c2Run3.planes 0 = c2A3 :=
  c2_chain c2Run2 c2A2 c2A3 1 c2_fact2.1 c2_fact2.2 c2_step3

theorem c2_fact4 : c2Run4.ship = shipInit ∧ c2Run4.planes 0 = c2A4 :=
  c2_chain c2Run3 c2A3 c2A4 8 c2_fact3.1 c2_fact3.2 c2_step4

theorem c2_fact5 : c2Run5.ship = shipInit ∧ c2Run5.planes 0 = c2A5 :=
  c2_chain c2Run4 c2A4 c2A5 (9 / 20) c2_fact4.1 c2_fact4.2 c2_step5

theorem c2_fact6 : c2Run6.ship = shipInit ∧ c2Run6.planes 0 = c2A6 :=
  c2_chain c2Run5 c2A5 c2A6 (9 / 20) c2_fact5.1 c2_fact5.2 c2_step6

theorem c2_fact7 : c2Run7.ship = shipInit ∧ c2Run7.planes 0 = c2A7 :=
  c2_chain c2Run6 c2A6 c2A7 1 c2_fact6.1 c2_fact6.2 c2_step7

theorem c2_fact8 : c2Run8.ship = shipInit ∧ c2Run8.planes 0 = c2A8 :=
  c2_chain c2Run7 c2A7 c2A8 4 c2_fact7.1 c2_fact7.2 c2_step8

theorem c2_reach0 : Reachable c2Run0 :=
  Reachable.mouseClicked _ ⟨0, 0⟩ false Reachable.init

theorem c2_reach7 : Reachable c2Run7 :=
  Reachable.update c2Run6 1
    (Reachable.update c2Run5 (9 / 20)
      (Reachable.update c2Run4 (9 / 20)
        (Reachable.update c2Run3 8
          (Reachable.update c2Run2 1
            (Reachable.update c2Run1 (1 / 1000)
              (Reachable.update c2Run0 2 c2_reach0 (by norm_num))
              (by norm_num))
            (by norm_num))
          (by norm_num))
        (by norm_num))
      (by norm_num))
    (by norm_num)

theorem c2_reach8 : Reachable c2Run8 :=
  Reachable.update c2Run7 4 c2_reach7 (by norm_num)

/-- C2 counterexample: a reachable game state whose plane 0 is in REFUEL — a
non-airborne state — with linear speed 2, not 0 (the run: init, right click,
then updates with dt = 2, 0.001, 1, 8, 0.45, 0.45, 1). -/
theorem c2_counterexample :
    ∃ g, Reachable g ∧ (g.planes 0).state = AircraftState.REFUEL ∧
      (g.planes 0).linearSpeed = 2 ∧ (g.planes 0).linearSpeed ≠ 0 := by
  refine ⟨c2Run7, c2_reach7, ?_, ?_, ?_⟩
  · rw [c2_fact7.2]
    rfl
  · rw [c2_fact7.2]
    rfl
  · rw [c2_fact7.2]
    show (2 : ℝ) ≠ 0
    norm_num

/-- C3 counterexample: a reachable game state whose plane 0 is back in IDLE
after a full flight cycle while its visual handle is still non-null
(`Aircraft::land` destroys the mesh without nulling the pointer). -/
theorem c3_counterexample :
    ∃ g, Reachable g ∧ (g.planes 0).state = AircraftState.IDLE ∧
      (g.planes 0).meshNonNull = true := by
  refine ⟨c2Run8, c2_reach8, ?_, ?_⟩
  · rw [c2_fact8.2]
    rfl
  · rw [c2_fact8.2]
    rfl

/-- C4 counterexample: hold FORWARD for one frame, then deinit + init; the
ship's linear speed is still 0.5 (neither `Ship::deinit` nor `Ship::init`
resets it), while a fresh start followed by `init` has linear speed 0. -/
theorem c4_counterexample :
    ∃ g, Reachable g ∧
      ((g.deinit).init).ship.linearSpeed ≠ (Game.startup.init).ship.linearSpeed := by
  refine ⟨((Game.startup.init).keyPressed Key.FORWARD).update 1,
    Reachable.update _ 1 (Reachable.keyPressed _ Key.FORWARD Reachable.init) one_pos, ?_⟩
  show (Ship.update 1 ((Game.startup.init).keyPressed Key.FORWARD).ship).linearSpeed ≠ _
  rw [Ship.update]
  norm_num [Game.startup, Game.init, Game.keyPressed, Ship.startup, Ship.init,
    Ship.keyPressed, params.ship.LINEAR_SPEED]

/-! ### Claim C1: a run where the LAND phase never completes -/

theorem atan2_zero_pos (x : ℝ) (hx : 0 < x) : atan2 0 x = 0 := by
  rw [atan2]
  have hx2 : (⟨x, 0⟩ : ℂ) = ((x : ℝ) : ℂ) := by
    apply Complex.ext <;> simp
  rw [hx2]
  exact Complex.arg_ofReal_of_nonneg (le_of_lt hx)

theorem length_five_sub_circle (t : ℝ) :
    ((⟨5, 0⟩ : Vector2) - ⟨5 + Real.cos t, Real.sin t⟩).length = 1 := by
  rw [show ((⟨5, 0⟩ : Vector2) - ⟨5 + Real.cos t, Real.sin t⟩)
      = ⟨5 - (5 + Real.cos t), 0 - Real.sin t⟩ from rfl,
    Vector2.length_mk,
    show (5 - (5 + Real.cos t)) * (5 - (5 + Real.cos t))
        + (0 - Real.sin t) * (0 - Real.sin t)
      = Real.sin t ^ 2 + Real.cos t ^ 2 by ring,
    Real.sin_sq_add_cos_sq, Real.sqrt_one]

theorem length_zero_sub (v : Vector2) : ((⟨0, 0⟩ : Vector2) - v).length = v.length := by
  rw [show ((⟨0, 0⟩ : Vector2) - v) = ⟨0 - v.x, 0 - v.y⟩ from rfl, Vector2.length_mk,
    show (0 - v.x) * (0 - v.x) + (0 - v.y) * (0 - v.y) = v.x * v.x + v.y * v.y by ring]
  rfl

/-- Numeric bounds for the cosine of the landing-approach angle
`params.PI + 15` of the C1 run. -/
theorem cos_PI_add_15_bounds :
    0.736 < Real.cos (params.PI + 15) ∧ Real.cos (params.PI + 15) < 0.7625 := by
  have hpi1 := Real.pi_gt_d6
  have hpi2 := Real.pi_lt_d6
  set w : ℝ := 6 * Real.pi - 15 - params.PI with hw
  have harg : params.PI + 15 = -w + (3 : ℤ) * (2 * Real.pi) := by
    rw [hw]
    push_cast
    ring
  have hcos : Real.cos (params.PI + 15) = Real.cos w := by
    rw [harg, Real.cos_add_int_mul_two_pi, Real.cos_neg]
  have hw1 : (0.707959 : ℝ) < w := by
    rw [hw]
    show (0.707959 : ℝ) < 6 * Real.pi - 15 - 3.14159265358979
    linarith
  have hw2 : w < (0.707966 : ℝ) := by
    rw [hw]
    show 6 * Real.pi - 15 - 3.14159265358979 < (0.707966 : ℝ)
    linarith
  have hwpos : 0 < w := by linarith
  have habs : |w| ≤ 1 := by
    rw [abs_of_pos hwpos]
    linarith
  have hb := Real.cos_bound habs
  rw [abs_of_pos hwpos, abs_le] at hb
  obtain ⟨hb1, hb2⟩ := hb
  have hsqu : w ^ 2 < 0.5012159 := by nlinarith
  have hsql : (0.5012059 : ℝ) < w ^ 2 := by nlinarith
  have h4 : w ^ 4 < 0.25122 := by nlinarith [sq_nonneg w, sq_nonneg (w ^ 2)]
  have h40 : 0 < w ^ 4 := by positivity
  rw [hcos]
  constructor
  · linarith
  · linarith

/-- Plane-0 state template along the C1 run (target at (5, 0)). -/
def c1Mk (pos : Vector2) (ang ls ft ha : ℝ) (st : AircraftState) : Aircraft :=
  { meshNonNull := true
    meshAlive := true
    position := pos
    angle := ang
    acceleration := 1
    linearSpeed := ls
    takeoffTime := 2
    flightTime := ft
    landingTime := 0
    targetPosition := ⟨5, 0⟩
    hoverRaduis := 1
    hoverAngle := ha
    state := st }

def c1B0 : Aircraft := c1Mk ⟨0, 0⟩ 0 0 0 0 AircraftState.TAKEOFF

def c1B1 : Aircraft := c1Mk ⟨0, 0⟩ 0 1 1 0 AircraftState.TAKEOFF

def c1B2 : Aircraft := c1Mk ⟨1, 0⟩ 0 2 2 0 AircraftState.TAKEOFF

def c1B3 : Aircraft := c1Mk ⟨3, 0⟩ 0 2 3 0 AircraftState.FLY

def c1B4 : Aircraft := c1Mk ⟨5, 0⟩ 0 2 4 0 AircraftState.FLY

def c1B5 : Aircraft := c1Mk ⟨5, 0⟩ 0 2 5 params.PI AircraftState.HOVER

def c1B6 : Aircraft :=
  c1Mk ⟨5 + Real.cos (params.PI + 5 / 2), Real.sin (params.PI + 5 / 2)⟩
    (params.PI + params.PI / 2) 2 6 (params.PI + 5 / 2) AircraftState.HOVER

def c1B7 : Aircraft :=
  c1Mk ⟨5 + Real.cos (params.PI + 5), Real.sin (params.PI + 5)⟩
    (params.PI + 5 / 2 + params.PI / 2) 2 7 (params.PI + 5) AircraftState.HOVER

def c1B8 : Aircraft :=
  c1Mk ⟨5 + Real.cos (params.PI + 15 / 2), Real.sin (params.PI + 15 / 2)⟩
    (params.PI + 5 + params.PI / 2) 2 8 (params.PI + 15 / 2) AircraftState.HOVER

def c1B9 : Aircraft :=
  c1Mk ⟨5 + Real.cos (params.PI + 10), Real.sin (params.PI + 10)⟩
    (params.PI + 15 / 2 + params.PI / 2) 2 9 (params.PI + 10) AircraftState.HOVER

def c1B10 : Aircraft :=
  c1Mk ⟨5 + Real.cos (params.PI + 25 / 2), Real.sin (params.PI + 25 / 2)⟩
    (params.PI + 10 + params.PI / 2) 2 10 (params.PI + 25 / 2) AircraftState.HOVER

def c1B11 : Aircraft :=
  c1Mk ⟨5 + Real.cos (params.PI + 15), Real.sin (params.PI + 15)⟩
    (params.PI + 25 / 2 + params.PI / 2) 2 11 (params.PI + 15) AircraftState.LAND

theorem c1_step1 : Aircraft.update shipInit 1 c1B0 = c1B1 := by
  rw [update_TAKEOFF_stay shipInit 1 c1B0 rfl (by norm_num [c1B0, c1Mk])]
  simp only [c1B0, c1B1, c1Mk, shipInit_eq]
  ext <;> simp <;> norm_num [params.aircraft.LINEAR_SPEED]

theorem c1_step2 : Aircraft.update shipInit 1 c1B1 = c1B2 := by
  rw [update_TAKEOFF_stay shipInit 1 c1B1 rfl (by norm_num [c1B1, c1Mk])]
  simp only [c1B1, c1B2, c1Mk, shipInit_eq]
  ext <;> simp <;> norm_num [params.aircraft.LINEAR_SPEED]

theorem c1_step3 : Aircraft.update shipInit 1 c1B2 = c1B3 := by
  rw [update_TAKEOFF_fly shipInit 1 c1B2 rfl (by norm_num [c1B2, c1Mk])]
  simp only [c1B2, c1B3, c1Mk, shipInit_eq]
  ext <;> simp <;> norm_num [params.aircraft.LINEAR_SPEED]

theorem c1_step4 : Aircraft.update shipInit 1 c1B3 = c1B4 := by
  have hr : c1B3.hoverRaduis < (c1B3.targetPosition - c1B3.position).length := by
    show (1 : ℝ) < (⟨(5 : ℝ) - 3, (0 : ℝ) - 0⟩ : Vector2).length
    rw [Vector2.length_mk,
      show ((5 : ℝ) - 3) * ((5 : ℝ) - 3) + ((0 : ℝ) - 0) * ((0 : ℝ) - 0) = 2 ^ 2 by norm_num,
      Real.sqrt_sq (by norm_num : (0 : ℝ) ≤ 2)]
    norm_num
  rw [update_FLY_move shipInit 1 c1B3 rfl hr]
  have hArg : atan2 (c1B3.targetPosition.y - c1B3.position.y)
      (c1B3.targetPosition.x - c1B3.position.x) = 0 := by
    show atan2 ((0 : ℝ) - 0) ((5 : ℝ) - 3) = 0
    rw [show ((0 : ℝ) - 0) = 0 by norm_num, show ((5 : ℝ) - 3) = 2 by norm_num]
    exact atan2_zero_pos 2 (by norm_num)
  rw [hArg]
  simp only [c1B3, c1B4, c1Mk]
  ext <;> simp <;> norm_num [params.aircraft.LINEAR_SPEED]

theorem c1_step5 : Aircraft.update shipInit 1 c1B4 = c1B5 := by
  have hr : (c1B4.targetPosition - c1B4.position).length ≤ c1B4.hoverRaduis := by
    show (⟨(5 : ℝ) - 5, (0 : ℝ) - 0⟩ : Vector2).length ≤ 1
    rw [Vector2.length_mk,
      show ((5 : ℝ) - 5) * ((5 : ℝ) - 5) + ((0 : ℝ) - 0) * ((0 : ℝ) - 0) = 0 by norm_num,
      Real.sqrt_zero]
    norm_num
  rw [update_FLY_hover shipInit 1 c1B4 rfl hr]
  simp only [c1B4, c1B5, c1Mk]
  ext <;> simp <;> norm_num [params.aircraft.LINEAR_SPEED]

theorem c1_step6 : Aircraft.update shipInit 1 c1B5 = c1B6 := by
  have hr : (c1B5.targetPosition - c1B5.position).length ≤ c1B5.hoverRaduis + 0.000001 := by
    show (⟨(5 : ℝ) - 5, (0 : ℝ) - 0⟩ : Vector2).length ≤ 1 + 0.000001
    rw [Vector2.length_mk,
      show ((5 : ℝ) - 5) * ((5 : ℝ) - 5) + ((0 : ℝ) - 0) * ((0 : ℝ) - 0) = 0 by norm_num,
      Real.sqrt_zero]
    norm_num
  rw [update_HOVER_stay shipInit 1 c1B5 rfl hr
    (by norm_num [c1B5, c1Mk, params.aircraft.FLIGHT_TIME])]
  simp only [c1B5, c1B6, c1Mk]
  ext <;> simp [params.aircraft.ANGULAR_SPEED, params.aircraft.LINEAR_SPEED]
  all_goals norm_num

theorem c1_step7 : Aircraft.update shipInit 1 c1B6 = c1B7 := by
  have hr : (c1B6.targetPosition - c1B6.position).length ≤ c1B6.hoverRaduis + 0.000001 := by
    show ((⟨5, 0⟩ : Vector2) - ⟨5 + Real.cos (params.PI + 5 / 2),
      Real.sin (params.PI + 5 / 2)⟩).length ≤ 1 + 0.000001
    rw [length_five_sub_circle]
    norm_num
  rw [update_HOVER_stay shipInit 1 c1B6 rfl hr
    (by norm_num [c1B6, c1Mk, params.aircraft.FLIGHT_TIME])]
  simp only [c1B6, c1B7, c1Mk]
  ext <;> simp [params.aircraft.ANGULAR_SPEED, params.aircraft.LINEAR_SPEED]
  all_goals norm_num
  all_goals ring_nf

theorem c1_step8 : Aircraft.update shipInit 1 c1B7 = c1B8 := by
  have hr : (c1B7.targetPosition - c1B7.position).length ≤ c1B7.hoverRaduis + 0.000001 := by
    show ((⟨5, 0⟩ : Vector2) - ⟨5 + Real.cos (params.PI + 5),
      Real.sin (params.PI + 5)⟩).length ≤ 1 + 0.000001
    rw [length_five_sub_circle]
    norm_num
  rw [update_HOVER_stay shipInit 1 c1B7 rfl hr
    (by norm_num [c1B7, c1Mk, params.aircraft.FLIGHT_TIME])]
  simp only [c1B7, c1B8, c1Mk]
  ext <;> simp [params.aircraft.ANGULAR_SPEED, params.aircraft.LINEAR_SPEED]
  all_goals norm_num
  all_goals ring_nf

theorem c1_step9 : Aircraft.update shipInit 1 c1B8 = c1B9 := by
  have hr : (c1B8.targetPosition - c1B8.position).length ≤ c1B8.hoverRaduis + 0.000001 := by
    show ((⟨5, 0⟩ : Vector2) - ⟨5 + Real.cos (params.PI + 15 / 2),
      Real.sin (params.PI + 15 / 2)⟩).length ≤ 1 + 0.000001
    rw [length_five_sub_circle]
    norm_num
  rw [update_HOVER_stay shipInit 1 c1B8 rfl hr
    (by norm_num [c1B8, c1Mk, params.aircraft.FLIGHT_TIME])]
  simp only [c1B8, c1B9, c1Mk]
  ext <;> simp [params.aircraft.ANGULAR_SPEED, params.aircraft.LINEAR_SPEED]
  all_goals norm_num
  all_goals ring_nf

theorem c1_step10 : Aircraft.update shipInit 1 c1B9 = c1B10 := by
  have hr : (c1B9.targetPosition - c1B9.position).length ≤ c1B9.hoverRaduis + 0.000001 := by
    show ((⟨5, 0⟩ : Vector2) - ⟨5 + Real.cos (params.PI + 10),
      Real.sin (params.PI + 10)⟩).length ≤ 1 + 0.000001
    rw [length_five_sub_circle]
    norm_num
  rw [update_HOVER_stay shipInit 1 c1B9 rfl hr
    (by norm_num [c1B9, c1Mk, params.aircraft.FLIGHT_TIME])]
  simp only [c1B9, c1B10, c1Mk]
  ext <;> simp [params.aircraft.ANGULAR_SPEED, params.aircraft.LINEAR_SPEED]
  all_goals norm_num
  all_goals ring_nf

theorem c1_step11 : Aircraft.update shipInit 1 c1B10 = c1B11 := by
  have hr : (c1B10.targetPosition - c1B10.position).length
      ≤ c1B10.hoverRaduis + 0.000001 := by
    show ((⟨5, 0⟩ : Vector2) - ⟨5 + Real.cos (params.PI + 25 / 2),
      Real.sin (params.PI + 25 / 2)⟩).length ≤ 1 + 0.000001
    rw [length_five_sub_circle]
    norm_num
  rw [update_HOVER_land shipInit 1 c1B10 rfl hr
    (by norm_num [c1B10, c1Mk, params.aircraft.FLIGHT_TIME])]
  simp only [c1B10, c1B11, c1Mk]
  ext <;> simp [params.aircraft.ANGULAR_SPEED, params.aircraft.LINEAR_SPEED]
  all_goals norm_num
  all_goals ring_nf

/-- The C1 run: init, left click targeting (5, 0) — a fixed target at
distance 5 > hover radius from the launch point — right click launching
plane 0, then frames of dt = 1. -/
def c1Run : ℕ → Game
  | 0 => ((Game.startup.init).mouseClicked ⟨5, 0⟩ true).mouseClicked ⟨5, 0⟩ false
  | n + 1 => (c1Run n).update 1

theorem c1_fact0 : (c1Run 0).ship = shipInit ∧ (c1Run 0).planes 0 = c1B0 := ⟨rfl, rfl⟩

theorem c1_fact1 : (c1Run 1).ship = shipInit ∧ (c1Run 1).planes 0 = c1B1 :=
  c2_chain (c1Run 0) c1B0 c1B1 1 c1_fact0.1 c1_fact0.2 c1_step1

theorem c1_fact2 : (c1Run 2).ship = shipInit ∧ (c1Run 2).planes 0 = c1B2 :=
  c2_chain (c1Run 1) c1B1 c1B2 1 c1_fact1.1 c1_fact1.2 c1_step2

theorem c1_fact3 : (c1Run 3).ship = shipInit ∧ (c1Run 3).planes 0 = c1B3 :=
  c2_chain (c1Run 2) c1B2 c1B3 1 c1_fact2.1 c1_fact2.2 c1_step3

theorem c1_fact4 : (c1Run 4).ship = shipInit ∧ (c1Run 4).planes 0 = c1B4 :=
  c2_chain (c1Run 3) c1B3 c1B4 1 c1_fact3.1 c1_fact3.2 c1_step4

theorem c1_fact5 : (c1Run 5).ship = shipInit ∧ (c1Run 5).planes 0 = c1B5 :=
  c2_chain (c1Run 4) c1B4 c1B5 1 c1_fact4.1 c1_fact4.2 c1_step5

theorem c1_fact6 : (c1Run 6).ship = shipInit ∧ (c1Run 6).planes 0 = c1B6 :=
  c2_chain (c1Run 5) c1B5 c1B6 1 c1_fact5.1 c1_fact5.2 c1_step6

theorem c1_fact7 : (c1Run 7).ship = shipInit ∧ (c1Run 7).planes 0 = c1B7 :=
  c2_chain (c1Run 6) c1B6 c1B7 1 c1_fact6.1 c1_fact6.2 c1_step7

theorem c1_fact8 : (c1Run 8).ship = shipInit ∧ (c1Run 8).planes 0 = c1B8 :=
  c2_chain (c1Run 7) c1B7 c1B8 1 c1_fact7.1 c1_fact7.2 c1_step8

theorem c1_fact9 : (c1Run 9).ship = shipInit ∧ (c1Run 9).planes 0 = c1B9 :=
  c2_chain (c1Run 8) c1B8 c1B9 1 c1_fact8.1 c1_fact8.2 c1_step9

theorem c1_fact10 : (c1Run 10).ship = shipInit ∧ (c1Run 10).planes 0 = c1B10 :=
  c2_chain (c1Run 9) c1B9 c1B10 1 c1_fact9.1 c1_fact9.2 c1_step10

theorem c1_fact11 : (c1Run 11).ship = shipInit ∧ (c1Run 11).planes 0 = c1B11 :=
  c2_chain (c1Run 10) c1B10 c1B11 1 c1_fact10.1 c1_fact10.2 c1_step11

theorem c1_reach (n : ℕ) : Reachable (c1Run n) := by
  induction n with
  | zero =>
    exact Reachable.mouseClicked _ ⟨5, 0⟩ false
      (Reachable.mouseClicked _ ⟨5, 0⟩ true Reachable.init)
  | succ n ih => exact Reachable.update (c1Run n) 1 ih one_pos

/-- Invariant of the never-ending LAND phase of the C1 run: the distance to
the ship stays in one of four bands, all clear of the 0.1 landing
threshold. -/
def LandInv (a : Aircraft) : Prop :=
  a.state = AircraftState.LAND ∧ a.linearSpeed = 2 ∧ a.acceleration = 1 ∧
  ((0.2 ≤ a.position.length ∧ a.position.length ≤ 0.23) ∨
   (1.77 ≤ a.position.length ∧ a.position.length ≤ 1.8) ∨
   (3.77 ≤ a.position.length ∧ a.position.length ≤ 3.8) ∨
   (5.77 ≤ a.position.length ∧ a.position.length ≤ 5.8))

theorem c1B11_landInv : LandInv c1B11 := by
  refine ⟨rfl, rfl, rfl, ?_⟩
  right; right; right
  have hlen : c1B11.position.length
      = Real.sqrt (26 + 10 * Real.cos (params.PI + 15)) := by
    show (⟨5 + Real.cos (params.PI + 15), Real.sin (params.PI + 15)⟩ : Vector2).length = _
    rw [Vector2.length_mk]
    congr 1
    linear_combination Real.sin_sq_add_cos_sq (params.PI + 15)
  obtain ⟨hc1, hc2⟩ := cos_PI_add_15_bounds
  rw [hlen]
  constructor
  · rw [show (5.77 : ℝ) = Real.sqrt (5.77 ^ 2) from (Real.sqrt_sq (by norm_num)).symm]
    apply Real.sqrt_le_sqrt
    nlinarith
  · rw [show (5.8 : ℝ) = Real.sqrt (5.8 ^ 2) from (Real.sqrt_sq (by norm_num)).symm]
    apply Real.sqrt_le_sqrt
    nlinarith

theorem c1_land_step (a : Aircraft) (h : LandInv a) :
    LandInv (Aircraft.update shipInit 1 a) := by
  obtain ⟨hst, hls, hacc, hd⟩ := h
  have hdpos : 0 < a.position.length := by
    rcases hd with ⟨h1, _⟩ | ⟨h1, _⟩ | ⟨h1, _⟩ | ⟨h1, _⟩ <;> linarith
  have hdist : (shipInit.position - a.position).length = a.position.length :=
    length_zero_sub a.position
  have hd01 : (0.1 : ℝ) < (shipInit.position - a.position).length := by
    rw [hdist]
    rcases hd with ⟨h1, _⟩ | ⟨h1, _⟩ | ⟨h1, _⟩ | ⟨h1, _⟩ <;> linarith
  have hupd := update_LAND_move shipInit 1 a hst hd01
  have hlen : (Aircraft.update shipInit 1 a).position.length
      = |a.position.length - 2| := by
    rw [hupd]
    dsimp only
    rw [show shipInit.position.y - a.position.y = 0 - a.position.y from rfl,
      show shipInit.position.x - a.position.x = 0 - a.position.x from rfl,
      move_toward_origin a.position (a.linearSpeed * 1) hdpos,
      length_smul_self a.position (a.linearSpeed * 1) hdpos, hls]
    norm_num
  refine ⟨?_, ?_, ?_, ?_⟩
  · rw [hupd]
    exact hst
  · rw [hupd]
    show (if a.linearSpeed + a.acceleration * 1 ≤ params.aircraft.LINEAR_SPEED
      then a.linearSpeed + a.acceleration * 1 else params.aircraft.LINEAR_SPEED) = 2
    rw [hls, hacc]
    norm_num [params.aircraft.LINEAR_SPEED]
  · rw [hupd]
    exact hacc
  · rw [hlen]
    rcases hd with ⟨h1, h2⟩ | ⟨h1, h2⟩ | ⟨h1, h2⟩ | ⟨h1, h2⟩
    · right; left
      rw [abs_of_nonpos (by linarith)]
      constructor <;> linarith
    · left
      rw [abs_of_nonpos (by linarith)]
      constructor <;> linarith
    · right; left
      rw [abs_of_nonneg (by linarith)]
      constructor <;> linarith
    · right; right; left
      rw [abs_of_nonneg (by linarith)]
      constructor <;> linarith

theorem c1_land_all (n : ℕ) :
    (c1Run (11 + n)).ship = shipInit ∧ LandInv ((c1Run (11 + n)).planes 0) := by
  induction n with
  | zero => exact ⟨c1_fact11.1, by rw [c1_fact11.2]; exact c1B11_landInv⟩
  | succ n ih =>
    refine ⟨?_, ?_⟩
    · show ((c1Run (11 + n)).update 1).ship = shipInit
      rw [Game.update_ship, ih.1, shipInit_update]
    · show LandInv (((c1Run (11 + n)).update 1).planes 0)
      rw [Game.update_plane, ih.1, shipInit_update]
      exact c1_land_step _ ih.2

/-- C1 counterexample: in the run `c1Run` — a launched aircraft whose target
stays fixed at (5, 0), distance 5 > hover radius from the launch point, with
every dt = 1, no larger than any phase duration — the aircraft reaches LAND
at frame 11 with the ship about 5.78 away, and each LAND frame moves it
exactly 2 toward the ship, so its distance oscillates between the bands
around 0.2 and 1.8 (never ≤ 0.1): the REFUEL state is never entered and the
claimed sequence never completes its cycle back to IDLE. -/
theorem c1_counterexample :
    ¬ ∃ n, ((c1Run n).planes 0).state = AircraftState.REFUEL := by
  rintro ⟨n, hn⟩
  rcases lt_or_le n 12 with h12 | h12
  · interval_cases n
    · rw [c1_fact0.2] at hn
      simp [c1B0, c1Mk] at hn
    · rw [c1_fact1.2] at hn
      simp [c1B1, c1Mk] at hn
    · rw [c1_fact2.2] at hn
      simp [c1B2, c1Mk] at hn
    · rw [c1_fact3.2] at hn
      simp [c1B3, c1Mk] at hn
    · rw [c1_fact4.2] at hn
      simp [c1B4, c1Mk] at hn
    · rw [c1_fact5.2] at hn
      simp [c1B5, c1Mk] at hn
    · rw [c1_fact6.2] at hn
      simp [c1B6, c1Mk] at hn
    · rw [c1_fact7.2] at hn
      simp [c1B7, c1Mk] at hn
    · rw [c1_fact8.2] at hn
      simp [c1B8, c1Mk] at hn
    · rw [c1_fact9.2] at hn
      simp [c1B9, c1Mk] at hn
    · rw [c1_fact10.2] at hn
      simp [c1B10, c1Mk] at hn
    · rw [c1_fact11.2] at hn
      simp [c1B11, c1Mk] at hn
  · obtain ⟨m, rfl⟩ : ∃ m, n = 11 + m := ⟨n - 11, by omega⟩
    have h := (c1_land_all m).2
    rw [h.1] at hn
    exact absurd hn (by simp)

/-- The successor of each state in the nominal flight cycle. -/
def nextState : AircraftState → AircraftState
  | AircraftState.IDLE => AircraftState.TAKEOFF
  | AircraftState.TAKEOFF => AircraftState.FLY
  | AircraftState.FLY => AircraftState.HOVER
  | AircraftState.HOVER => AircraftState.LAND
  | AircraftState.LAND => AircraftState.REFUEL
  | AircraftState.REFUEL => AircraftState.IDLE

/-- C1 (amended): every `update` either keeps the state or advances it to
its immediate successor in the cycle IDLE, TAKEOFF, FLY, HOVER, LAND,
REFUEL, IDLE — so no state is skipped and none visited out of order — with
HOVER additionally able to fall back to FLY, but only when the distance to
the target exceeds hoverRadius + 1e-6, which cannot happen while the target
stays fixed; the full cycle back to IDLE, however, need not complete: the
LAND phase can oscillate forever. -/
theorem c1_amended_order (s : Ship) (dt : ℝ) (a : Aircraft) :
    ((a.update s dt).state = a.state ∨ (a.update s dt).state = nextState a.state ∨
      (a.state = AircraftState.HOVER ∧ (a.update s dt).state = AircraftState.FLY)) ∧
    (a.state = AircraftState.HOVER →
      (a.targetPosition - a.position).length ≤ a.hoverRaduis + 0.000001 →
      (a.update s dt).state ≠ AircraftState.FLY) := by
  constructor
  · cases hst : a.state with
    | IDLE =>
      rw [update_IDLE s dt a hst]
      exact Or.inl hst
    | TAKEOFF =>
      rcases lt_or_le a.flightTime a.takeoffTime with hft | hft
      · rw [update_TAKEOFF_stay s dt a hst hft]
        exact Or.inl hst
      · rw [update_TAKEOFF_fly s dt a hst hft]
        exact Or.inr (Or.inl rfl)
    | FLY =>
      rcases le_or_lt ((a.targetPosition - a.position).length) a.hoverRaduis with hr | hr
      · rw [update_FLY_hover s dt a hst hr]
        exact Or.inr (Or.inl rfl)
      · rw [update_FLY_move s dt a hst hr]
        exact Or.inl hst
    | HOVER =>
      rcases lt_or_le (a.hoverRaduis + 0.000001)
          ((a.targetPosition - a.position).length) with hr | hr
      · rw [update_HOVER_fly s dt a hst hr]
        exact Or.inr (Or.inr ⟨rfl, rfl⟩)
      · rcases lt_or_le a.flightTime params.aircraft.FLIGHT_TIME with hft | hft
        · rw [update_HOVER_stay s dt a hst hr hft]
          exact Or.inl hst
        · rw [update_HOVER_land s dt a hst hr hft]
          exact Or.inr (Or.inl rfl)
    | LAND =>
      rcases le_or_lt ((s.position - a.position).length) 0.1 with hd | hd
      · rw [update_LAND_refuel s dt a hst hd]
        exact Or.inr (Or.inl rfl)
      · rw [update_LAND_move s dt a hst hd]
        exact Or.inl hst
    | REFUEL =>
      rcases le_or_lt (a.landingTime + dt)
          (a.flightTime + params.aircraft.REFUEL_TIME) with hlt | hlt
      · rw [update_REFUEL_stay s dt a hst hlt]
        exact Or.inl hst
      · rw [update_REFUEL_idle s dt a hst hlt]
        exact Or.inr (Or.inl rfl)
  · intro hst hr hfly
    rcases lt_or_le a.flightTime params.aircraft.FLIGHT_TIME with hft | hft
    · rw [update_HOVER_stay s dt a hst hr hft] at hfly
      have hfly2 : a.state = AircraftState.FLY := hfly
      rw [hst] at hfly2
      cases hfly2
    · rw [update_HOVER_land s dt a hst hr hft] at hfly
      exact absurd hfly (by simp)

/-- Witness for C1 (amended) at a concrete hovering aircraft over its
target. -/
theorem c1_amended_witness :
    (({ Aircraft.startup.init with state := AircraftState.HOVER } : Aircraft).state
        = AircraftState.HOVER ∨
      ({ Aircraft.startup.init with
        state := AircraftState.HOVER } : Aircraft).state = AircraftState.IDLE) ∧
    ((({ Aircraft.startup.init with
        state := AircraftState.HOVER } : Aircraft).update Ship.startup 1).state
      ≠ AircraftState.FLY) := by
  refine ⟨Or.inl rfl, (c1_amended_order Ship.startup 1 _).2 rfl ?_⟩
  show ((⟨0, 0⟩ : Vector2) - ⟨0, 0⟩).length ≤ 1 + 0.000001
  rw [show ((⟨0, 0⟩ : Vector2) - ⟨0, 0⟩) = ⟨0 - 0, 0 - 0⟩ from rfl, Vector2.length_mk,
    show ((0 : ℝ) - 0) * ((0 : ℝ) - 0) + ((0 : ℝ) - 0) * ((0 : ℝ) - 0) = 0 by norm_num,
    Real.sqrt_zero]
  norm_num
